import Mathlib

/-!
Verification of the SENTINELX behavioral-biometric continuous-authentication
engine against its natural-language specification.

The Python sources (backend/trust/trust_engine.py, backend/ml/predict.py,
backend/ml/train_model.py, backend/behavior/features.py, backend/behavior/mouse.py,
backend/auth/verify.py, backend/database/db.py, backend/database/models.py) are
shallowly embedded below.  Conventions of the embedding:

* `float` is modelled by `ℚ`; every arithmetic operation appearing in the
  sources (addition, multiplication, division, mean, population variance,
  median, linearly interpolated percentile, clamping) is exact on `ℚ`.
* The two numpy kernels whose exact values involve square roots, `np.std`
  (standard deviation, the square root of the population variance) and the
  Pearson entry `np.corrcoef(x, y)[0, 1]` as used in
  `features.py::_calculate_temporal_correlation`, are irrational in general,
  so the feature extractor is parametrised by a `FloatOracle` carrying those
  two kernels.  Every theorem below is universally quantified over the oracle
  and therefore holds for the true kernels.  (For
  `mouse.py::calculate_movement_rhythm`, where a claim depends on the exact
  value, the Pearson coefficient is instead embedded exactly over `ℝ`.)
* `datetime` values are modelled as rational numbers of seconds;
  `datetime.utcnow()` becomes an explicit `now : ℚ` argument.
* The SQLAlchemy store is modelled by explicit lists of rows (`Db`), and the
  per-user persisted model bundles (`user_<uid>_model.pkl` files together
  with the predictor cache keyed by uid) by a `ModelStore`.
* The three scikit-learn one-class detectors are external library objects;
  a fitted detector is modelled as an abstract function from a scaled feature
  vector to an optional (decision score, prediction) pair, where `none`
  models the per-detector exception branch of `predict.py`.  Fitting is
  modelled by an abstract `fitters` argument to `train_user_model`.
* Python exception control flow becomes `Except` / explicit fallback values;
  the embedded functions are total, mirroring the fact that every public
  entry point of the sources catches its exceptions.
-/

namespace SentinelX

/-- Clamp a rational to the interval [0,1]; embeds Python `max(0.0, min(1.0, x))`. -/
def clamp01 (x : ℚ) : ℚ := max 0 (min 1 x)

/-- Embeds `np.mean` on a list of rationals (0 on the empty list, where numpy gives NaN;
every call site in the sources is guarded by a nonemptiness check). -/
def npMean (l : List ℚ) : ℚ := l.sum / l.length

/-- Embeds `np.var`: population variance. -/
def npVar (l : List ℚ) : ℚ := (l.map (fun x => (x - npMean l) ^ 2)).sum / l.length

/-- Embeds `np.max` on a nonempty list (0 on the empty list). -/
def npMax (l : List ℚ) : ℚ :=
  match l with
  | [] => 0
  | x :: xs => xs.foldl max x

/-- Embeds `np.min` on a nonempty list (0 on the empty list). -/
def npMin (l : List ℚ) : ℚ :=
  match l with
  | [] => 0
  | x :: xs => xs.foldl min x

/-- Embeds `np.percentile` with the default linear interpolation:
position `(n-1)·q/100` between the order statistics. -/
def npPercentile (l : List ℚ) (q : ℚ) : ℚ :=
  let s := l.mergeSort (fun a b => decide (a ≤ b))
  match s with
  | [] => 0
  | _ :: _ =>
    let pos : ℚ := ((s.length : ℚ) - 1) * q / 100
    let lo : ℕ := (⌊pos⌋).toNat
    let base := s.getD lo 0
    base + (pos - (lo : ℚ)) * (s.getD (lo + 1) base - base)

/-- Embeds `np.median` = 50th percentile. -/
def npMedian (l : List ℚ) : ℚ := npPercentile l 50

/-- The two numpy kernels whose exact values are square roots and hence
irrational in general: `np.std` and the (NaN-mapped) Pearson coefficient
`np.corrcoef(x, y)[0, 1]` used on the binary presence series in
`features.py`.  The development is parametric in this oracle, so all
theorems hold for the true kernels. -/
structure FloatOracle where
  std : List ℚ → ℚ
  corr : List ℚ → List ℚ → ℚ

/-- A trivial oracle instance used to instantiate witnesses. -/
def zeroOracle : FloatOracle := ⟨fun _ => 0, fun _ _ => 0⟩

/-! Section: Data model (backend/database/models.py)

`user_sessions` and `behavioral_events` rows.  Column defaults follow
`models.py` (`initial_trust_score=1.0`, `current_trust_score=1.0`,
`min_trust_threshold=0.3`, `is_active=True`).  The raw `event_data` JSON blob
is opaque to every embedded function and is omitted; `processed_features` is
modelled as the parsed association list. -/

structure UserSessionRow where
  id : Nat
  user_id : Nat
  session_token : String
  initial_trust_score : ℚ := 1
  current_trust_score : ℚ := 1
  min_trust_threshold : ℚ := 3/10
  ip_address : Option String := none
  login_time : ℚ
  last_activity : ℚ
  is_active : Bool := true
deriving DecidableEq

structure EventRow where
  id : Nat
  session_id : Nat
  event_type : String
  processed_features : List (String × ℚ) := []
  anomaly_score : Option ℚ := none
  is_anomalous : Bool := false
  timestamp : ℚ
deriving DecidableEq

/-- Embeds `behavioral_profiles` rows; the serialized JSON pattern blobs
(`typing_rhythm_pattern`, `mouse_movement_pattern`) are opaque to every
claim and are omitted. -/
structure ProfileRow where
  user_id : Nat
  samples_count : Nat
  confidence_score : ℚ
deriving DecidableEq

structure Db where
  sessions : List UserSessionRow
  events : List EventRow
  profiles : List ProfileRow
deriving DecidableEq

/-- Embeds `db.query(UserSession).filter(UserSession.id == session_id).first()`. -/
def find_session (db : Db) (sid : Nat) : Option UserSessionRow :=
  db.sessions.find? (fun r => r.id == sid)

/-- Embeds `DatabaseOperations.get_active_session`: lookup by token among active rows. -/
def get_active_session (db : Db) (tok : String) : Option UserSessionRow :=
  db.sessions.find? (fun r => r.session_token == tok && r.is_active)

/-- Apply an update to the session row with the given primary key
(SQLAlchemy attribute mutation followed by commit). -/
def update_session (db : Db) (sid : Nat) (f : UserSessionRow → UserSessionRow) : Db :=
  { db with sessions := db.sessions.map (fun r => if r.id = sid then f r else r) }

/-- Events of one session in ascending timestamp order
(`order_by(BehavioralEvent.timestamp)`). -/
def session_events_asc (db : Db) (sid : Nat) : List EventRow :=
  (db.events.filter (fun e => e.session_id == sid)).mergeSort
    (fun a b => decide (a.timestamp ≤ b.timestamp))

/-! Section: Feature engineering (backend/behavior/features.py) -/

/-- Python `d.get(k, default)` on a processed-feature map. -/
def fget (m : List (String × ℚ)) (k : String) (d : ℚ) : ℚ :=
  match m.find? (fun p => p.1 == k) with
  | some p => p.2
  | none => d

/-- Python `k in d`. -/
def fmem (m : List (String × ℚ)) (k : String) : Bool :=
  (m.find? (fun p => p.1 == k)).isSome

/-- Keys of a list of feature maps, deduplicated (the Python code forms a
`set`; iteration order of a set is unspecified, first-occurrence order is
chosen here — no claim depends on the order of emitted features). -/
def dedup_keys (ks : List String) : List String :=
  ks.foldl (fun acc k => if acc.contains k then acc else acc ++ [k]) []

def all_feature_keys (fs : List (List (String × ℚ))) : List String :=
  dedup_keys (fs.flatMap (fun m => m.map Prod.fst))

/-- The per-name statistical aggregation of `extract_keystroke_features`:
`ks_<name>_mean/_std/_median/_iqr` over the events that carry the name. -/
def ks_stats (o : FloatOracle) (fs : List (List (String × ℚ))) (name : String) :
    List (String × ℚ) :=
  let values := (fs.filter (fun m => fmem m name)).map (fun m => fget m name 0)
  if values.isEmpty then []
  else
    [("ks_" ++ name ++ "_mean", npMean values),
     ("ks_" ++ name ++ "_std", o.std values),
     ("ks_" ++ name ++ "_median", npMedian values),
     ("ks_" ++ name ++ "_iqr", npPercentile values 75 - npPercentile values 25)]

/-- Embeds `_extract_keystroke_patterns`. -/
def extract_keystroke_patterns (o : FloatOracle) (fs : List (List (String × ℚ))) :
    List (String × ℚ) :=
  let consistency :=
    if fs.length > 1 then
      let dwell_means := fs.map (fun f => fget f "avg_dwell_time" 0)
      let flight_means := fs.map (fun f => fget f "avg_flight_time" 0)
      [("ks_dwell_consistency", 1 / (1 + o.std dwell_means)),
       ("ks_flight_consistency", 1 / (1 + o.std flight_means))]
    else []
  let rhythm_vars := fs.map (fun f => fget f "typing_rhythm_variance" 0)
  let error_rates := fs.map (fun f => fget f "error_correction_rate" 0)
  consistency ++
    [("ks_rhythm_stability", 1 / (1 + npMean rhythm_vars)),
     ("ks_error_consistency", 1 - o.std error_rates)]

/-- Embeds `extract_keystroke_features`: statistical aggregation over the processed
feature maps of the keystroke events, plus derived patterns.  (JSON parsing
of `processed_features` is modelled as always succeeding.) -/
def extract_keystroke_features (o : FloatOracle) (events : List EventRow) :
    List (String × ℚ) :=
  let fs := events.map (fun e => e.processed_features)
  if fs.isEmpty then []
  else
    ((all_feature_keys fs).flatMap (ks_stats o fs)) ++ extract_keystroke_patterns o fs

/-- The per-name statistical aggregation of `extract_mouse_features`:
`ms_<name>_mean/_std/_median/_max/_min`. -/
def ms_stats (o : FloatOracle) (fs : List (List (String × ℚ))) (name : String) :
    List (String × ℚ) :=
  let values := (fs.filter (fun m => fmem m name)).map (fun m => fget m name 0)
  if values.isEmpty then []
  else
    [("ms_" ++ name ++ "_mean", npMean values),
     ("ms_" ++ name ++ "_std", o.std values),
     ("ms_" ++ name ++ "_median", npMedian values),
     ("ms_" ++ name ++ "_max", npMax values),
     ("ms_" ++ name ++ "_min", npMin values)]

/-- Embeds `_extract_mouse_patterns`. -/
def extract_mouse_patterns (o : FloatOracle) (fs : List (List (String × ℚ))) :
    List (String × ℚ) :=
  let consistency :=
    if fs.length > 1 then
      let velocity_means := fs.map (fun f => fget f "velocity_mean" 0)
      let smoothness_vals := fs.map (fun f => fget f "movement_smoothness" 0)
      [("ms_velocity_consistency", 1 / (1 + o.std velocity_means)),
       ("ms_smoothness_consistency", 1 / (1 + o.std smoothness_vals))]
    else []
  let click_precisions := fs.map (fun f => fget f "click_precision" 0)
  let path_effs := fs.map (fun f => fget f "path_efficiency" 0)
  consistency ++
    [("ms_click_stability", 1 - o.std click_precisions),
     ("ms_efficiency_trend", npMean path_effs)]

/-- Embeds `extract_mouse_features`. -/
def extract_mouse_features (o : FloatOracle) (events : List EventRow) :
    List (String × ℚ) :=
  let fs := events.map (fun e => e.processed_features)
  if fs.isEmpty then []
  else
    ((all_feature_keys fs).flatMap (ms_stats o fs)) ++ extract_mouse_patterns o fs

/-- Embeds `_extract_activity_distribution`: divide the session into at most 10 bins
of 30 seconds and measure uniformity and peak ratio of the per-bin counts. -/
def extract_activity_distribution (o : FloatOracle) (timestamps : List ℚ) :
    List (String × ℚ) :=
  if timestamps.length < 10 then []
  else
    match timestamps with
    | [] => []
    | t0 :: _ =>
      let rel := timestamps.map (fun t => t - t0)
      let dur := rel.getLastD 0
      if dur > 0 then
        let num_bins : Nat := min 10 (⌊dur / 30⌋).toNat
        if num_bins > 1 then
          let bin_size := dur / (num_bins : ℚ)
          let idx := fun (t : ℚ) => min (⌊t / bin_size⌋).toNat (num_bins - 1)
          let bin_counts := (List.range num_bins).map
            (fun i => ((rel.filter (fun t => idx t == i)).length : ℚ))
          let m := npMean bin_counts
          [("activity_uniformity", if m > 0 then 1 - o.std bin_counts / m else 0),
           ("activity_peak_ratio", if m > 0 then npMax bin_counts / m else 0)]
        else []
      else []

/-- Embeds `extract_temporal_features` over all events of the session in time order. -/
def extract_temporal_features (o : FloatOracle) (events : List EventRow) :
    List (String × ℚ) :=
  if events.length < 2 then []
  else
    let timestamps := events.map (fun e => e.timestamp)
    let time_diffs := (timestamps.zip timestamps.tail).map (fun p => p.2 - p.1)
    let base :=
      if time_diffs.isEmpty then []
      else
        [("temporal_avg_interval", npMean time_diffs),
         ("temporal_std_interval", o.std time_diffs),
         ("temporal_max_gap", npMax time_diffs),
         ("temporal_activity_bursts",
            ((time_diffs.filter (fun d => decide (d < 1/2))).length : ℚ))]
    let session_duration := timestamps.getLastD 0 - timestamps.headD 0
    base ++
      [("temporal_session_duration", session_duration),
       ("temporal_event_rate",
          if session_duration > 0 then (events.length : ℚ) / session_duration else 0)] ++
      extract_activity_distribution o timestamps

/-- Embeds `_calculate_temporal_correlation`: Pearson coefficient of the 1 Hz binary
presence series of the two modalities; 0 when either modality has fewer than
5 events or the joint span is under 10 seconds.  The Pearson kernel itself
(with its NaN-to-0 mapping) is the oracle field `corr`. -/
def calc_temporal_correlation (o : FloatOracle) (ks_times ms_times : List ℚ) : ℚ :=
  if ks_times.length < 5 || ms_times.length < 5 then 0
  else
    let all_times := (ks_times ++ ms_times).mergeSort (fun a b => decide (a ≤ b))
    let start := all_times.headD 0
    let dur := all_times.getLastD 0 - start
    if dur < 10 then 0
    else
      let time_bins : Nat := (⌊dur⌋).toNat
      let series := fun (ts : List ℚ) =>
        (List.range time_bins).map (fun i =>
          if ts.any (fun t => min (⌊t - start⌋).toNat (time_bins - 1) == i)
          then (1 : ℚ) else 0)
      o.corr (series ks_times) (series ms_times)

/-- Embeds `_extract_multitasking_patterns`: switch rate and mode persistence over
the merged, time-sorted event stream. -/
def extract_multitasking_patterns (ks_events ms_events : List EventRow) :
    List (String × ℚ) :=
  let tagged := (ks_events.map (fun e => (e.timestamp, "ks"))) ++
                (ms_events.map (fun e => (e.timestamp, "ms")))
  let all_events := tagged.mergeSort
    (fun a b => decide (a.1 < b.1 ∨ (a.1 = b.1 ∧ a.2 ≤ b.2)))
  if all_events.length < 10 then []
  else
    let pairs := all_events.zip all_events.tail
    let switches := (pairs.filter (fun p => p.1.2 != p.2.2)).length
    let mode_durations :=
      (pairs.filterMap (fun p => if p.1.2 != p.2.2 then some p.2.1 else none))
    let starts := all_events.headD (0, "") :: (pairs.filterMap
      (fun p => if p.1.2 != p.2.2 then some p.2 else none))
    let durations := ((starts.map Prod.fst).zip mode_durations).map (fun p => p.2 - p.1)
    [("multitask_switch_rate", (switches : ℚ) / all_events.length)] ++
      (if durations.isEmpty then []
       else [("multitask_avg_persistence", npMean durations),
             ("multitask_persistence_variance", npVar durations)])

/-- Embeds `extract_cross_modal_features`. -/
def extract_cross_modal_features (o : FloatOracle)
    (ks_events ms_events : List EventRow) : List (String × ℚ) :=
  let ks_times := ks_events.map (fun e => e.timestamp)
  let ms_times := ms_events.map (fun e => e.timestamp)
  [("cross_ks_ms_ratio",
      if ms_events.isEmpty then 0 else (ks_events.length : ℚ) / ms_events.length),
   ("cross_temporal_correlation", calc_temporal_correlation o ks_times ms_times)] ++
    extract_multitasking_patterns ks_events ms_events

/-- Embeds `FeatureEngineer.extract_session_features`: the per-session feature map.
Key collisions cannot occur across the four groups (their prefixes are
disjoint), so Python dict update is concatenation. -/
def extract_session_features (o : FloatOracle) (db : Db) (sid : Nat) :
    List (String × ℚ) :=
  let events := session_events_asc db sid
  if events.isEmpty then []
  else
    let ks := events.filter (fun e => e.event_type == "keystroke")
    let ms := events.filter (fun e => e.event_type == "mouse")
    (if ks.isEmpty then [] else extract_keystroke_features o ks) ++
    (if ms.isEmpty then [] else extract_mouse_features o ms) ++
    extract_temporal_features o events ++
    (if !ks.isEmpty && !ms.isEmpty then extract_cross_modal_features o ks ms else [])

/-- Embeds `FeatureEngineer._get_expected_feature_names`: the fixed feature
vocabulary, in canonical order. -/
def expected_feature_names : List String :=
  ["ks_avg_dwell_time_mean", "ks_avg_dwell_time_std", "ks_avg_flight_time_mean",
   "ks_typing_rhythm_variance_mean", "ks_pressure_consistency_mean",
   "ks_dwell_consistency", "ks_flight_consistency", "ks_rhythm_stability",
   "ms_velocity_mean_mean", "ms_velocity_mean_std", "ms_path_efficiency_mean",
   "ms_movement_smoothness_mean", "ms_click_precision_mean",
   "ms_velocity_consistency", "ms_smoothness_consistency",
   "temporal_avg_interval", "temporal_std_interval", "temporal_event_rate",
   "activity_uniformity", "activity_peak_ratio",
   "cross_ks_ms_ratio", "cross_temporal_correlation", "multitask_switch_rate"]

/-- Embeds `FeatureEngineer.create_feature_vector`: project the feature map onto the
fixed vocabulary, defaulting missing names to 0.  (The NaN/infinity guard of
the source is vacuous over `ℚ`.) -/
def create_feature_vector (features : List (String × ℚ)) : List ℚ :=
  expected_feature_names.map (fun name => fget features name 0)

/-! Section: Real-time prediction (backend/ml/predict.py) -/

/-- An already-fitted scikit-learn one-class detector, abstractly: from a
scaled feature vector to a (decision score, prediction) pair; `none` models
the per-detector exception branch of `predict_anomaly` (the model is then
skipped). -/
structure Detector where
  run : List ℚ → Option (ℚ × ℤ)

/-- Fitted `StandardScaler` parameters (per-feature location and scale). -/
structure ScalerParams where
  mean : List ℚ
  scale : List ℚ

/-- Embeds `scaler.transform` on a single row: coordinatewise `(x - mean) / scale`. -/
def scaler_transform (p : ScalerParams) (v : List ℚ) : List ℚ :=
  (v.zip (p.mean.zip p.scale)).map (fun x => (x.1 - x.2.1) / x.2.2)

/-- A persisted/loaded per-user model bundle: the fitted detectors in
insertion order, the scaler, and the importance-sorted feature map.  (The
bundled `feature_engineer` and `model_scores` entries are dead weight in
`predict.py` and are not modelled.) -/
structure LoadedModel where
  models : List (String × Detector)
  scaler : ScalerParams
  feature_importance : List (String × ℚ)

/-- The persisted `user_<uid>_model.pkl` files (equivalently the cache of the
predictor after a successful load). -/
structure ModelStore where
  files : List (Nat × LoadedModel)

/-- Embeds `RealTimePredictor.load_user_model`: `some` on success,
`none` on a missing (or unreadable) bundle. -/
def load_user_model (store : ModelStore) (user_id : Nat) : Option LoadedModel :=
  (store.files.find? (fun p => p.1 == user_id)).map Prod.snd

/-- The dictionary returned by `predict_anomaly` (and consumed by the trust
engine); `message` is present exactly on the failure paths. -/
structure PredictionResult where
  anomaly_score : ℚ
  risk_level : String
  confidence : ℚ
  message : Option String := none
  model_scores : List (String × ℚ) := []
  anomalous_features : List String := []
deriving DecidableEq

/-- Embeds `RealTimePredictor.model_weights` with the `.get(name, 0.33)` default. -/
def model_weight (name : String) : ℚ :=
  if name == "isolation_forest" then 4/10
  else if name == "one_class_svm" then 3/10
  else if name == "local_outlier_factor" then 3/10
  else 33/100

/-- Embeds `RealTimePredictor._normalize_anomaly_score`: per-detector mapping of the
raw decision score to an anomaly probability, clamped to [0,1]. -/
def normalize_anomaly_score (score : ℚ) (name : String) : ℚ :=
  let normalized :=
    if name == "isolation_forest" then max 0 ((1/2 - score) / 1)
    else if name == "one_class_svm" then max 0 ((2 - score) / 4)
    else if name == "local_outlier_factor" then max 0 (min 1 ((-score - 1) / 2))
    else max 0 (min 1 ((1 - score) / 2))
  min 1 (max 0 normalized)

/-- Embeds `RealTimePredictor._determine_risk_level`. -/
def determine_risk_level (anomaly_score : ℚ) : String :=
  if anomaly_score ≥ 8/10 then "high_risk"
  else if anomaly_score ≥ 6/10 then "medium_risk"
  else if anomaly_score ≥ 3/10 then "low_risk"
  else "normal"

/-- Embeds `RealTimePredictor._calculate_confidence`: 0.5 with fewer than two
scores; otherwise 0.6 times the fraction of predictions equal to the first
prediction in the dictionary plus 0.4 times `1/(1+Var(raw scores))`,
clamped to [0,1]. -/
def calculate_confidence (scores : List (String × ℚ)) (predictions : List (String × ℤ)) : ℚ :=
  if scores.length < 2 then 1/2
  else
    let pred_values := predictions.map Prod.snd
    let agreement :=
      ((pred_values.filter (fun p => p == pred_values.headD 0)).length : ℚ) /
        pred_values.length
    let consistency := 1 / (1 + npVar (scores.map Prod.snd))
    min 1 (max 0 (agreement * (6/10) + consistency * (4/10)))

/-- Embeds `RealTimePredictor._analyze_anomalous_features`: among the first ten
features of the importance map, those present in the current feature map
with absolute value above 2. -/
def analyze_anomalous_features (current : List (String × ℚ))
    (importance : List (String × ℚ)) : List String :=
  (importance.take 10).filterMap (fun p =>
    match current.find? (fun q => q.1 == p.1) with
    | some q => if |q.2| > 2 then some p.1 else none
    | none => none)

/-- The ensemble loop of `predict_anomaly`: scale the feature vector and
query every detector, keeping the (name, score, prediction) triples of the
detectors that did not raise, in dictionary order. -/
def ensemble_outputs (m : LoadedModel) (features : List (String × ℚ)) :
    List (String × ℚ × ℤ) :=
  let x_scaled := scaler_transform m.scaler (create_feature_vector features)
  m.models.filterMap (fun p =>
    (p.2.run x_scaled).map (fun r => (p.1, r.1, r.2)))

/-- The weighted ensemble score of `predict_anomaly`: the weight-normalised
sum of the per-detector normalised scores (0 when the total weight is not
positive). -/
def ensemble_anomaly_score (outs : List (String × ℚ × ℤ)) : ℚ :=
  let weighted := (outs.map (fun t =>
    normalize_anomaly_score t.2.1 t.1 * model_weight t.1)).sum
  let total := (outs.map (fun t => model_weight t.1)).sum
  if total > 0 then weighted / total else 0

/-- Embeds `RealTimePredictor.predict_anomaly`.  The three early returns are the
failure paths: missing bundle, empty session feature map, and all detectors
raising. -/
def predict_anomaly (o : FloatOracle) (store : ModelStore) (db : Db)
    (user_id session_id : Nat) : PredictionResult :=
  match load_user_model store user_id with
  | none =>
    { anomaly_score := 0, risk_level := "unknown", confidence := 0,
      message := some "No trained model available" }
  | some m =>
    let features := extract_session_features o db session_id
    if features.isEmpty then
      { anomaly_score := 0, risk_level := "insufficient_data", confidence := 0,
        message := some "Insufficient behavioral data" }
    else
      let outs := ensemble_outputs m features
      if outs.isEmpty then
        { anomaly_score := 0, risk_level := "error", confidence := 0,
          message := some "All models failed to predict" }
      else
        let final := ensemble_anomaly_score outs
        { anomaly_score := final,
          risk_level := determine_risk_level final,
          confidence := calculate_confidence (outs.map (fun t => (t.1, t.2.1)))
            (outs.map (fun t => (t.1, t.2.2))),
          model_scores := outs.map (fun t => (t.1, t.2.1)),
          anomalous_features := analyze_anomalous_features features m.feature_importance }

/-! Section: Trust engine (backend/trust/trust_engine.py) -/

inductive TrustLevel where
  | critical | low | moderate | high | maximum
deriving DecidableEq

/-- The `.value` strings of the `TrustLevel` enum. -/
def TrustLevel.value : TrustLevel → String
  | .critical => "critical"
  | .low => "low"
  | .moderate => "moderate"
  | .high => "high"
  | .maximum => "maximum"

inductive SecurityAction where
  | terminate_session | require_reauth | restrict_access
  | increase_monitoring | log_only | no_action
deriving DecidableEq

/-- The `.value` strings of the `SecurityAction` enum. -/
def SecurityAction.value : SecurityAction → String
  | .terminate_session => "terminate_session"
  | .require_reauth => "require_reauth"
  | .restrict_access => "restrict_access"
  | .increase_monitoring => "increase_monitoring"
  | .log_only => "log_only"
  | .no_action => "no_action"

/-- Embeds `TrustEngine._determine_trust_level`. -/
def determine_trust_level (trust_score : ℚ) : TrustLevel :=
  if trust_score ≥ 8/10 then .maximum
  else if trust_score ≥ 6/10 then .high
  else if trust_score ≥ 4/10 then .moderate
  else if trust_score ≥ 2/10 then .low
  else .critical

/-- Embeds `TrustEngine.trust_actions`. -/
def trust_action : TrustLevel → SecurityAction
  | .critical => .terminate_session
  | .low => .require_reauth
  | .moderate => .restrict_access
  | .high => .increase_monitoring
  | .maximum => .no_action

/-- Embeds `TrustEngine._calculate_behavioral_score`: invert the anomaly score and
temper it by the prediction confidence, clamped to [0,1]. -/
def calculate_behavioral_score (ba : PredictionResult) : ℚ :=
  let base_trust := 1 - ba.anomaly_score
  clamp01 (base_trust * ba.confidence + (1 - ba.confidence) * (1/2))

/-- Embeds `TrustEngine._calculate_temporal_consistency`: over the up-to-20 most
recent events of the last 10 minutes (descending timestamp order), the
variance-over-mean consistency of the inter-event intervals, halved when the
timing is suspiciously regular. -/
def calculate_temporal_consistency (db : Db) (now : ℚ) (s : UserSessionRow) : ℚ :=
  let recent := ((db.events.filter (fun e =>
      e.session_id == s.id && decide (e.timestamp ≥ now - 600))).mergeSort
      (fun a b => decide (b.timestamp ≤ a.timestamp))).take 20
  if recent.length < 5 then 7/10
  else
    let timestamps := recent.map (fun e => e.timestamp)
    let time_intervals := (timestamps.zip timestamps.tail).map (fun p => p.1 - p.2)
    if time_intervals.isEmpty then 7/10
    else
      let avg_interval := npMean time_intervals
      let interval_variance := npVar time_intervals
      let consistency := 1 / (1 + interval_variance / max avg_interval 1)
      let consistency :=
        if interval_variance < 1/10 && decide (avg_interval < 1)
        then consistency * (1/2) else consistency
      clamp01 consistency

/-- Embeds `TrustEngine._calculate_session_context_score`: session-duration and
activity-level multipliers on a base score of 1. -/
def calculate_session_context_score (db : Db) (now : ℚ) (s : UserSessionRow) : ℚ :=
  let session_duration := now - s.login_time
  let context_score : ℚ := 1
  let context_score :=
    if session_duration < 60 then context_score * (7/10)
    else if session_duration > 28800 then context_score * (8/10)
    else context_score
  let total_events := (db.events.filter (fun e => e.session_id == s.id)).length
  let context_score :=
    if session_duration > 0 then
      let events_per_minute := (total_events : ℚ) * 60 / session_duration
      if 5 ≤ events_per_minute ∧ events_per_minute ≤ 50 then context_score * 1
      else if events_per_minute < 1 then context_score * (6/10)
      else if events_per_minute > 100 then context_score * (5/10)
      else context_score
    else context_score
  let context_score :=
    if s.ip_address.isSome then context_score * 1 else context_score
  clamp01 context_score

/-- Embeds `TrustEngine._calculate_historical_trust`: stability-weighted mean of the
stored trust of the up-to-10 most recent sessions of the user in the last 7
days.  Python truthiness (`if s.current_trust_score`) drops scores equal to
0. -/
def calculate_historical_trust (db : Db) (now : ℚ) (user_id : Nat) : ℚ :=
  let recent_sessions := ((db.sessions.filter (fun r =>
      r.user_id == user_id && decide (r.login_time ≥ now - 604800))).mergeSort
      (fun a b => decide (b.login_time ≤ a.login_time))).take 10
  if recent_sessions.isEmpty then 1/2
  else
    let trust_scores := recent_sessions.filterMap (fun r =>
      if r.current_trust_score ≠ 0 then some r.current_trust_score else none)
    if trust_scores.isEmpty then 1/2
    else
      let avg := npMean trust_scores
      let stability := 1 / (1 + npVar trust_scores)
      clamp01 (avg * stability)

/-- Embeds `TrustEngine._calculate_anomaly_frequency`: the fraction of the last 15
minutes of session events that are not flagged anomalous (1 with no events). -/
def calculate_anomaly_frequency (db : Db) (now : ℚ) (session_id : Nat) : ℚ :=
  let recent_events := db.events.filter (fun e =>
    e.session_id == session_id && decide (e.timestamp ≥ now - 900))
  if recent_events.isEmpty then 1
  else
    let anomaly_rate :=
      ((recent_events.filter (fun e => e.is_anomalous)).length : ℚ) /
        recent_events.length
    clamp01 (1 - anomaly_rate)

/-- The `trust_components` dictionary of the result. -/
structure TrustComponents where
  behavioral_score : ℚ
  temporal_consistency : ℚ
  session_context : ℚ
  historical_trust : ℚ
  anomaly_frequency : ℚ
deriving DecidableEq

/-- The component dictionary computed by `calculate_trust_score` for a
session row. -/
def trust_components_of (o : FloatOracle) (store : ModelStore) (db : Db)
    (now : ℚ) (session_id : Nat) (s : UserSessionRow) : TrustComponents :=
  { behavioral_score :=
      calculate_behavioral_score (predict_anomaly o store db s.user_id session_id),
    temporal_consistency := calculate_temporal_consistency db now s,
    session_context := calculate_session_context_score db now s,
    historical_trust := calculate_historical_trust db now s.user_id,
    anomaly_frequency := calculate_anomaly_frequency db now session_id }

/-- The `sum(score * weight)` loop of `calculate_trust_score` over the
`trust_weights` dictionary. -/
def trust_weighted_sum (c : TrustComponents) : ℚ :=
  c.behavioral_score * (4/10) + c.temporal_consistency * (2/10) +
  c.session_context * (15/100) + c.historical_trust * (15/100) +
  c.anomaly_frequency * (1/10)

/-- The `trust_trend` dictionary of the result
(`TrustEngine._calculate_trust_trend`). -/
structure TrustTrend where
  trend : String
  change : ℚ
deriving DecidableEq

/-- Embeds `TrustEngine._calculate_trust_trend`.  Python truthiness: a stored
`current_trust_score` of 0 falls back to `initial_trust_score`. -/
def calculate_trust_trend (db : Db) (session_id : Nat) (current_trust : ℚ) : TrustTrend :=
  match find_session db session_id with
  | none => { trend := "stable", change := 0 }
  | some s =>
    let previous := if s.current_trust_score ≠ 0 then s.current_trust_score
                    else s.initial_trust_score
    let change := current_trust - previous
    { trend :=
        if |change| < 5/100 then "stable"
        else if change > 0 then "increasing" else "decreasing",
      change := change }

/-- The dictionary returned by `calculate_trust_score`; the fallback path
populates only the error subset of the keys (the optional fields are `none`
there). -/
structure TrustResult where
  session_id : Nat
  trust_score : ℚ
  trust_level : String
  recommended_action : String
  trust_components : Option TrustComponents := none
  behavioral_analysis : Option PredictionResult := none
  trust_trend : Option TrustTrend := none
  confidence : Option ℚ := none
  error : Option String := none
deriving DecidableEq

/-- Embeds `TrustEngine._update_session_trust`: write the new trust score and bump
`last_activity`, in place, then commit. -/
def update_session_trust (db : Db) (sid : Nat) (trust_score now : ℚ) : Db :=
  update_session db sid (fun r =>
    { r with current_trust_score := trust_score, last_activity := now })

/-- Embeds `TrustEngine.calculate_trust_score`: the full per-session calculation.
A missing session raises inside the `try` and lands on the fallback path
(neutral 0.5 / moderate / increase monitoring, with an `error` field and no
store write).  On the success path the five weighted components are combined,
clamped, classified, and written back. -/
def calculate_trust_score (o : FloatOracle) (store : ModelStore) (db : Db)
    (now : ℚ) (session_id : Nat) : TrustResult × Db :=
  match find_session db session_id with
  | none =>
    ({ session_id := session_id, trust_score := 1/2,
       trust_level := TrustLevel.moderate.value,
       recommended_action := SecurityAction.increase_monitoring.value,
       error := some ("Session " ++ toString session_id ++ " not found") }, db)
  | some s =>
    let behavioral_analysis := predict_anomaly o store db s.user_id session_id
    let trust_components := trust_components_of o store db now session_id s
    let final_trust_score := max 0 (min 1 (trust_weighted_sum trust_components))
    let trust_level := determine_trust_level final_trust_score
    let recommended_action := trust_action trust_level
    let result : TrustResult :=
      { session_id := session_id,
        trust_score := final_trust_score,
        trust_level := trust_level.value,
        recommended_action := recommended_action.value,
        trust_components := some trust_components,
        behavioral_analysis := some behavioral_analysis,
        trust_trend := some (calculate_trust_trend db session_id final_trust_score),
        confidence := some behavioral_analysis.confidence }
    (result, update_session_trust db session_id final_trust_score now)

/-- The dictionary returned by `execute_security_action`. -/
structure ActionResult where
  success : Bool
  action : Option String := none
  action_message : String
deriving DecidableEq

/-- Embeds `TrustEngine.execute_security_action`.  TERMINATE_SESSION deactivates the
session; REQUIRE_REAUTH clamps the stored trust to at most 0.3; the remaining
actions only log. -/
def execute_security_action (db : Db) (session_id : Nat) (action : SecurityAction) :
    ActionResult × Db :=
  match find_session db session_id with
  | none => ({ success := false, action_message := "Session not found" }, db)
  | some _ =>
    match action with
    | .terminate_session =>
      ({ success := true, action := some "session_terminated",
         action_message := "Session terminated due to security concerns" },
       update_session db session_id (fun r => { r with is_active := false }))
    | .require_reauth =>
      ({ success := true, action := some "reauth_required",
         action_message := "Re-authentication required" },
       update_session db session_id (fun r =>
         { r with current_trust_score := min r.current_trust_score (3/10) }))
    | .restrict_access =>
      ({ success := true, action := some "access_restricted",
         action_message := "Access restrictions applied" }, db)
    | .increase_monitoring =>
      ({ success := true, action := some "monitoring_increased",
         action_message := "Monitoring frequency increased" }, db)
    | _ =>
      ({ success := true, action := some "no_action",
         action_message := "No action required" }, db)

/-! Section: Session verification (backend/auth/verify.py) -/

/-- Embeds `SessionVerifier.verify_session_token`: fetch the active session by
token; 401 when absent or inactive; a session older than 24 hours is marked
inactive (committed) and rejected. -/
def verify_session_token (db : Db) (tok : String) (now : ℚ) :
    Except String UserSessionRow × Db :=
  match get_active_session db tok with
  | none => (.error "Invalid or expired session", db)
  | some s =>
    if s.is_active = false then (.error "Session has been terminated", db)
    else if now - s.login_time > 86400 then
      (.error "Session expired",
       update_session db s.id (fun r => { r with is_active := false }))
    else (.ok s, db)

/-- Embeds `SessionVerifier.continuous_verification`: verify the token, recalculate
trust (`verify_trust_level` runs `calculate_trust_score`), then bump
`last_activity`. -/
def continuous_verification (o : FloatOracle) (store : ModelStore) (db : Db)
    (tok : String) (now : ℚ) : Except String TrustResult × Db :=
  let v := verify_session_token db tok now
  match v.1 with
  | .error e => (.error e, v.2)
  | .ok s =>
    let p := calculate_trust_score o store v.2 now s.id
    (.ok p.1, update_session p.2 s.id (fun r => { r with last_activity := now }))

/-! Section: Training pipeline (backend/ml/train_model.py) -/

/-- The events of the user in the 30-day training window, in ascending
timestamp order (the `join ... session.has(user_id=...)` query of
`collect_training_data`). -/
def collect_events_for_user (db : Db) (user_id : Nat) (now : ℚ) : List EventRow :=
  let cutoff := now - 30 * 86400
  (db.events.filter (fun e =>
    (match find_session db e.session_id with
     | some s => s.user_id == user_id
     | none => false) && decide (e.timestamp ≥ cutoff))).mergeSort
    (fun a b => decide (a.timestamp ≤ b.timestamp))

/-- Session ids in first-occurrence order (the grouping dictionary of
`collect_training_data`). -/
def session_ids_of (evs : List EventRow) : List Nat :=
  evs.foldl (fun acc e =>
    if acc.contains e.session_id then acc else acc ++ [e.session_id]) []

/-- The qualifying sessions of `collect_training_data`: groups with at least
10 events whose extracted feature map is nonempty, each contributing a
(feature vector, feature map) pair. -/
def qualifying_sessions (o : FloatOracle) (db : Db) (evs : List EventRow) :
    List (List ℚ × List (String × ℚ)) :=
  (session_ids_of evs).filterMap (fun sid =>
    if (evs.filter (fun e => e.session_id == sid)).length ≥ 10 then
      let features := extract_session_features o db sid
      if features.isEmpty then none
      else some (create_feature_vector features, features)
    else none)

/-- Embeds `BehavioralAnomalyDetector.collect_training_data`: empty when the window
has fewer than 50 events or fewer than 10 qualifying sessions. -/
def collect_training_data (o : FloatOracle) (db : Db) (user_id : Nat) (now : ℚ) :
    List (List ℚ) × List (List (String × ℚ)) :=
  let events := collect_events_for_user db user_id now
  if events.length < 50 then ([], [])
  else
    let q := qualifying_sessions o db events
    if q.length < 10 then ([], [])
    else (q.map Prod.fst, q.map Prod.snd)

/-- Column `i` of a training matrix. -/
def column (x : List (List ℚ)) (i : Nat) : List ℚ := x.map (fun row => row.getD i 0)

/-- Embeds `StandardScaler.fit`: per-column location (exact mean) and scale
(`np.std` via the oracle; scikit-learn maps a zero scale to 1). -/
def fit_standard_scaler (o : FloatOracle) (x : List (List ℚ)) : ScalerParams :=
  let dim := (x.headD []).length
  { mean := (List.range dim).map (fun i => npMean (column x i)),
    scale := (List.range dim).map (fun i =>
      let s := o.std (column x i)
      if s = 0 then 1 else s) }

/-- Embeds `BehavioralAnomalyDetector._calculate_feature_importance`: per-column
variance normalised by the maximum variance, keyed by the vocabulary and
sorted descending. -/
def calculate_feature_importance (x : List (List ℚ)) : List (String × ℚ) :=
  if x.isEmpty then []
  else
    let dim := (x.headD []).length
    let feature_variances := (List.range dim).map (fun i => npVar (column x i))
    let max_variance := if npMax feature_variances > 0 then npMax feature_variances else 1
    let normalized := feature_variances.map (fun v => v / max_variance)
    ((expected_feature_names.take normalized.length).zip normalized).mergeSort
      (fun a b => decide (b.2 ≤ a.2))

/-- The dictionary returned by `train_user_model`. -/
structure TrainResult where
  success : Bool
  message : String
  samples_collected : Nat
  models_trained : List String := []
deriving DecidableEq

/-- Embeds `joblib.dump(model_data, "user_<uid>_model.pkl")`: write (or overwrite)
the bundle file of the user. -/
def write_model_file (store : ModelStore) (uid : Nat) (m : LoadedModel) : ModelStore :=
  if (store.files.find? (fun p => p.1 == uid)).isSome then
    ⟨store.files.map (fun p => if p.1 = uid then (uid, m) else p)⟩
  else ⟨store.files ++ [(uid, m)]⟩

/-- Embeds `BehavioralAnomalyDetector._update_behavioral_profile` (the serialized
pattern blobs are opaque and omitted): upsert sample count and
`confidence = min(samples/100, 1)`. -/
def update_behavioral_profile (db : Db) (uid : Nat) (samples : Nat) : Db :=
  let conf := min ((samples : ℚ) / 100) 1
  if (db.profiles.find? (fun p => p.user_id == uid)).isSome then
    { db with profiles := db.profiles.map (fun p =>
        if p.user_id = uid then
          { p with samples_count := samples, confidence_score := conf } else p) }
  else
    { db with profiles := db.profiles ++ [⟨uid, samples, conf⟩] }

/-- The ensemble, in the iteration order of `self.models`. -/
def detector_names : List String :=
  ["isolation_forest", "one_class_svm", "local_outlier_factor"]

/-- Embeds `BehavioralAnomalyDetector.train_user_model`.  Detector fitting is the
external scikit-learn call, abstracted by `fitters` (`none` models the
per-detector exception branch; fitting plus in-sample evaluation).  A bundle
file is written only on the success path; both refusal paths leave the store
and the database untouched. -/
def train_user_model (o : FloatOracle)
    (fitters : String → List (List ℚ) → Option Detector)
    (store : ModelStore) (db : Db) (uid : Nat) (now : ℚ) :
    TrainResult × ModelStore × Db :=
  let collected := collect_training_data o db uid now
  let x_train := collected.1
  if x_train.isEmpty then
    ({ success := false, message := "Insufficient training data",
       samples_collected := 0 }, store, db)
  else
    let scaler := fit_standard_scaler o x_train
    let x_scaled := x_train.map (scaler_transform scaler)
    let trained := detector_names.filterMap (fun n =>
      (fitters n x_scaled).map (fun d => (n, d)))
    if trained.isEmpty then
      ({ success := false, message := "All models failed to train",
         samples_collected := x_train.length }, store, db)
    else
      let bundle : LoadedModel :=
        ⟨trained, scaler, calculate_feature_importance x_scaled⟩
      ({ success := true, message := "Model trained successfully",
         samples_collected := x_train.length,
         models_trained := trained.map Prod.fst },
       write_model_file store uid bundle,
       update_behavioral_profile db uid collected.2.length)

/-! Section: Mouse movement rhythm (backend/behavior/mouse.py)

`MouseProcessor.calculate_movement_rhythm` sums `|np.corrcoef(v[:-lag],
v[lag:])[0,1]|` over `lag in range(1, min(10, n//2)))`, skipping NaN
coefficients, and divides the sum by the constant 9.  Because a claim
depends on its exact value, the Pearson coefficient is embedded exactly
over `ℝ` here. -/

/-- A raw pointer move record; only the `velocity` key (read with
`.get` with the key `velocity`, default 0) is consulted by `calculate_movement_rhythm`. -/
structure RawMouseEvent where
  velocity : ℚ := 0
deriving DecidableEq

/-- Deviations from the mean. -/
def dev_list (x : List ℚ) : List ℚ := x.map (fun v => v - npMean x)

/-- Sum of products of deviations (the shared numerator of covariance and
correlation; the `1/(n-1)` factors of `np.corrcoef` cancel). -/
def dev_products (x y : List ℚ) : ℚ :=
  (((dev_list x).zip (dev_list y)).map (fun p => p.1 * p.2)).sum

/-- Sum of squared deviations. -/
def dev_sq (x : List ℚ) : ℚ := ((dev_list x).map (fun v => v ^ 2)).sum

/-- The Pearson coefficient `np.corrcoef(x, y)[0, 1]`.  When either list is
constant the source value is NaN and the coefficient is skipped (contributing
0); here the numerator is then 0 as well and division by zero yields 0, so
the NaN case is represented exactly by the value 0. -/
noncomputable def np_corrcoef (x y : List ℚ) : ℝ :=
  ((dev_products x y : ℚ) : ℝ) / Real.sqrt (((dev_sq x : ℚ) : ℝ) * ((dev_sq y : ℚ) : ℝ))

/-- Embeds `MouseProcessor.calculate_movement_rhythm`: the summed absolute
autocorrelations divided by the constant 9 (`return rhythm_score / 9`). -/
noncomputable def calculate_movement_rhythm (move_events : List RawMouseEvent) : ℝ :=
  let velocities := move_events.map (fun e => e.velocity)
  if velocities.length < 10 then 0
  else
    let n := velocities.length
    let lags := List.range' 1 (min 10 (n / 2) - 1)
    ((lags.map (fun lag =>
      |np_corrcoef (velocities.take (n - lag)) (velocities.drop lag)|)).sum) / 9

/-- The movement-rhythm feature as worded by the specification and the
claim: the MEAN of `|autocorr(velocity, lag)|` over `lag ∈ [1, min(10,
n/2))`, a NaN autocorrelation contributing 0 to the mean.  Stated here only
to be compared with `calculate_movement_rhythm`. -/
noncomputable def claimed_movement_rhythm (move_events : List RawMouseEvent) : ℝ :=
  let velocities := move_events.map (fun e => e.velocity)
  if velocities.length < 10 then 0
  else
    let n := velocities.length
    let lags := List.range' 1 (min 10 (n / 2) - 1)
    ((lags.map (fun lag =>
      |np_corrcoef (velocities.take (n - lag)) (velocities.drop lag)|)).sum) /
      (lags.length : ℝ)

/-- The prediction-agreement ratio as worded by the specification and the
claim: the fraction of detectors sharing the MAJORITY prediction.  Stated
here only to be compared with `calculate_confidence`. -/
def spec_confidence (scores : List (String × ℚ)) (predictions : List (String × ℤ)) : ℚ :=
  if scores.length < 2 then 1/2
  else
    let pred_values := predictions.map Prod.snd
    let majority := (pred_values.map (fun p =>
      (pred_values.filter (fun q => q == p)).length)).foldr Nat.max 0
    let agreement := (majority : ℚ) / pred_values.length
    let consistency := 1 / (1 + npVar (scores.map Prod.snd))
    min 1 (max 0 (agreement * (6/10) + consistency * (4/10)))

/-! Section: The operations of the service surface

Every store-touching operation reachable from the HTTP surface
(`main.py`, the behavior routers, `verify.py`, `login.py`), for the
session-liveness claim.  `create_session` models the autoincrement primary
key and the unique token column: an insert colliding on either is refused
by the store. -/

inductive Op where
  | trust_score (sid : Nat) (now : ℚ)
  | security_action (sid : Nat) (a : SecurityAction)
  | verify_token (tok : String) (now : ℚ)
  | continuous_verify (tok : String) (now : ℚ)
  | update_activity (tok : String) (now : ℚ)
  | append_event (e : EventRow)
  | create_session (r : UserSessionRow)

/-- The store effect of one operation. -/
def apply_op (o : FloatOracle) (store : ModelStore) : Op → Db → Db
  | .trust_score sid now, db => (calculate_trust_score o store db now sid).2
  | .security_action sid a, db => (execute_security_action db sid a).2
  | .verify_token tok now, db => (verify_session_token db tok now).2
  | .continuous_verify tok now, db => (continuous_verification o store db tok now).2
  | .update_activity tok now, db =>
      match get_active_session db tok with
      | some s => update_session db s.id (fun r => { r with last_activity := now })
      | none => db
  | .append_event e, db => { db with events := db.events ++ [e] }
  | .create_session r, db =>
      if db.sessions.any (fun x => x.id == r.id || x.session_token == r.session_token)
      then db
      else { db with sessions := db.sessions ++ [r] }

def run_ops (o : FloatOracle) (store : ModelStore) (ops : List Op) (db : Db) : Db :=
  ops.foldl (fun d op => apply_op o store op d) db

/-- A terminated token: some session row carries the token, and every row
carrying it is inactive. -/
def dead_token (l : List UserSessionRow) (tok : String) : Prop :=
  (∃ r ∈ l, r.session_token = tok) ∧
  ∀ r ∈ l, r.session_token = tok → r.is_active = false

/-! Section: Concrete inputs used by the witnesses and counterexamples -/

def emptyStore : ModelStore := ⟨[]⟩

def emptyDb : Db := ⟨[], [], []⟩

/-- A fresh session created 30 seconds ago with the column defaults. -/
def exSession : UserSessionRow :=
  { id := 1, user_id := 1, session_token := "tok", login_time := 0, last_activity := 0 }

def exDb : Db := ⟨[exSession], [], []⟩

/-- A detector whose prediction always raises (is skipped). -/
def failDetector : Detector := ⟨fun _ => none⟩

/-- A detector that always succeeds with score 0 and prediction 1. -/
def okDetector : Detector := ⟨fun _ => some (0, 1)⟩

/-- A bundle whose detectors all fail at prediction time. -/
def failBundle : LoadedModel := ⟨[("isolation_forest", failDetector)], ⟨[], []⟩, []⟩

/-- A bundle with one working detector. -/
def okBundle : LoadedModel := ⟨[("isolation_forest", okDetector)], ⟨[], []⟩, []⟩

def failStore : ModelStore := ⟨[(1, failBundle)]⟩

def okStore : ModelStore := ⟨[(1, okBundle)]⟩

/-- One keystroke event with an empty processed map, in session 1. -/
def exEvent : EventRow :=
  { id := 1, session_id := 1, event_type := "keystroke", timestamp := 5 }

def exDbOneEvent : Db := ⟨[exSession], [exEvent], []⟩

/-- The detector-level inputs of the confidence counterexample: three
detectors, all raw scores 0, the first predicting -1 and the other two 1. -/
def cx_scores : List (String × ℚ) :=
  [("isolation_forest", 0), ("one_class_svm", 0), ("local_outlier_factor", 0)]

def cx_preds : List (String × ℤ) :=
  [("isolation_forest", -1), ("one_class_svm", 1), ("local_outlier_factor", 1)]

/-- Ten pointer moves with alternating velocities 1, 2. -/
def cx_moves : List RawMouseEvent :=
  [⟨1⟩, ⟨2⟩, ⟨1⟩, ⟨2⟩, ⟨1⟩, ⟨2⟩, ⟨1⟩, ⟨2⟩, ⟨1⟩, ⟨2⟩]

/-- Twenty pointer moves. -/
def w_moves : List RawMouseEvent :=
  [⟨1⟩, ⟨2⟩, ⟨1⟩, ⟨2⟩, ⟨1⟩, ⟨2⟩, ⟨1⟩, ⟨2⟩, ⟨1⟩, ⟨2⟩,
   ⟨1⟩, ⟨2⟩, ⟨1⟩, ⟨2⟩, ⟨1⟩, ⟨2⟩, ⟨1⟩, ⟨2⟩, ⟨1⟩, ⟨2⟩]

/-! Section: Basic range lemmas -/

lemma clamp01_nonneg (x : ℚ) : 0 ≤ clamp01 x := le_max_left 0 _

lemma clamp01_le_one (x : ℚ) : clamp01 x ≤ 1 :=
  max_le (by norm_num) (min_le_left 1 x)

lemma clamp01_eq_self (x : ℚ) (h0 : 0 ≤ x) (h1 : x ≤ 1) : clamp01 x = x := by
  unfold clamp01
  rw [min_eq_right h1, max_eq_right h0]

lemma normalize_anomaly_score_range (s : ℚ) (n : String) :
    0 ≤ normalize_anomaly_score s n ∧ normalize_anomaly_score s n ≤ 1 := by
  unfold normalize_anomaly_score
  exact ⟨le_min (by norm_num) (le_max_left 0 _), min_le_left _ _⟩

lemma model_weight_pos (n : String) : 0 < model_weight n := by
  unfold model_weight
  split_ifs <;> norm_num

lemma list_sum_map_nonneg {α : Type} (l : List α) (f : α → ℚ)
    (h : ∀ a ∈ l, 0 ≤ f a) : 0 ≤ (l.map f).sum := by
  apply List.sum_nonneg
  intro x hx
  obtain ⟨a, ha, rfl⟩ := List.mem_map.1 hx
  exact h a ha

lemma list_sum_map_pos {α : Type} (l : List α) (f : α → ℚ)
    (hne : l ≠ []) (h : ∀ a ∈ l, 0 < f a) : 0 < (l.map f).sum := by
  cases l with
  | nil => exact absurd rfl hne
  | cons x xs =>
    simp only [List.map_cons, List.sum_cons]
    have hx := h x (List.mem_cons_self x xs)
    have hxs : 0 ≤ (xs.map f).sum :=
      list_sum_map_nonneg xs f (fun a ha => (h a (List.mem_cons_of_mem x ha)).le)
    linarith

lemma calculate_confidence_range (scores : List (String × ℚ))
    (preds : List (String × ℤ)) :
    0 ≤ calculate_confidence scores preds ∧ calculate_confidence scores preds ≤ 1 := by
  unfold calculate_confidence
  split_ifs with h
  · norm_num
  · exact ⟨le_min (by norm_num) (le_max_left 0 _), min_le_left _ _⟩

lemma ensemble_anomaly_score_range (outs : List (String × ℚ × ℤ)) :
    0 ≤ ensemble_anomaly_score outs ∧ ensemble_anomaly_score outs ≤ 1 := by
  unfold ensemble_anomaly_score
  dsimp only
  split_ifs with h
  · constructor
    · apply div_nonneg _ (le_of_lt h)
      apply list_sum_map_nonneg
      intro a _
      exact mul_nonneg (normalize_anomaly_score_range a.2.1 a.1).1
        (model_weight_pos a.1).le
    · rw [div_le_one h]
      apply List.sum_le_sum
      intro t _
      calc normalize_anomaly_score t.2.1 t.1 * model_weight t.1
          ≤ 1 * model_weight t.1 :=
            mul_le_mul_of_nonneg_right
              (normalize_anomaly_score_range t.2.1 t.1).2 (model_weight_pos t.1).le
        _ = model_weight t.1 := one_mul _
  · norm_num

lemma predict_anomaly_range (o : FloatOracle) (store : ModelStore) (db : Db)
    (uid sid : Nat) :
    (0 ≤ (predict_anomaly o store db uid sid).anomaly_score ∧
      (predict_anomaly o store db uid sid).anomaly_score ≤ 1) ∧
    (0 ≤ (predict_anomaly o store db uid sid).confidence ∧
      (predict_anomaly o store db uid sid).confidence ≤ 1) := by
  unfold predict_anomaly
  cases hm : load_user_model store uid with
  | none => norm_num
  | some m =>
    by_cases hf : (extract_session_features o db sid).isEmpty
    · simp only [hf, if_true]
      norm_num
    · simp only [hf, if_false]
      by_cases ho : (ensemble_outputs m (extract_session_features o db sid)).isEmpty
      · simp only [ho, if_true]
        norm_num
      · simp only [ho, if_false]
        exact ⟨ensemble_anomaly_score_range _, calculate_confidence_range _ _⟩

lemma calculate_behavioral_score_eq (ba : PredictionResult)
    (ha0 : 0 ≤ ba.anomaly_score) (ha1 : ba.anomaly_score ≤ 1)
    (hc0 : 0 ≤ ba.confidence) (hc1 : ba.confidence ≤ 1) :
    calculate_behavioral_score ba =
      (1 - ba.anomaly_score) * ba.confidence + (1 - ba.confidence) * (1/2) := by
  unfold calculate_behavioral_score
  dsimp only
  apply clamp01_eq_self
  · nlinarith
  · nlinarith

lemma find?_map_update (l : List UserSessionRow) (sid : Nat)
    (f : UserSessionRow → UserSessionRow) (hf : ∀ r, (f r).id = r.id)
    (s : UserSessionRow) (hs : l.find? (fun r => r.id == sid) = some s) :
    (l.map (fun r => if r.id = sid then f r else r)).find? (fun r => r.id == sid) =
      some (f s) := by
  induction l with
  | nil => simp at hs
  | cons x xs ih =>
    by_cases hx : x.id = sid
    · rw [List.find?_cons_of_pos _ (by simp [hx])] at hs
      injection hs with hs'
      subst hs'
      simp only [List.map_cons, if_pos hx]
      rw [List.find?_cons_of_pos _ (by simp [hf, hx])]
    · rw [List.find?_cons_of_neg _ (by simp [hx])] at hs
      simp only [List.map_cons, if_neg hx]
      rw [List.find?_cons_of_neg _ (by simp [hx])]
      exact ih hs

lemma find_session_update_session (db : Db) (sid : Nat)
    (f : UserSessionRow → UserSessionRow) (hf : ∀ r, (f r).id = r.id)
    (s : UserSessionRow) (hs : find_session db sid = some s) :
    find_session (update_session db sid f) sid = some (f s) := by
  unfold find_session update_session at *
  exact find?_map_update db.sessions sid f hf s hs

lemma stored_trust_range (o : FloatOracle) (store : ModelStore) (db : Db)
    (now : ℚ) (sid : Nat) (s : UserSessionRow) (hs : find_session db sid = some s) :
    ∃ r, find_session (calculate_trust_score o store db now sid).2 sid = some r ∧
      0 ≤ r.current_trust_score ∧ r.current_trust_score ≤ 1 := by
  unfold calculate_trust_score
  rw [hs]
  dsimp only
  unfold update_session_trust
  exact ⟨_, find_session_update_session db sid
    (fun r => { r with
      current_trust_score :=
        max 0 (min 1 (trust_weighted_sum (trust_components_of o store db now sid s))),
      last_activity := now })
    (fun r => rfl) s hs,
    le_max_left 0 _, max_le (by norm_num) (min_le_left 1 _)⟩

lemma trust_score_range (o : FloatOracle) (store : ModelStore) (db : Db)
    (now : ℚ) (sid : Nat) :
    0 ≤ (calculate_trust_score o store db now sid).1.trust_score ∧
      (calculate_trust_score o store db now sid).1.trust_score ≤ 1 := by
  unfold calculate_trust_score
  cases hm : find_session db sid with
  | none => norm_num
  | some s =>
    dsimp only
    exact ⟨le_max_left 0 _, max_le (by norm_num) (min_le_left 1 _)⟩

/-- Claim C1: for every session present in the store, `calculate_trust_score`
returns a trust score equal to
`clamp(0.4 b' + 0.2 t + 0.15 x + 0.15 h + 0.1 f, 0, 1)`, where
`b' = (1 - anomaly_score) * confidence + 0.5 * (1 - confidence)` is the
confidence-tempered behavioral component built from the predictor result,
and `t`, `x`, `h`, `f` are the temporal-consistency, session-context,
historical-trust and anomaly-frequency components computed from the events
and history of the session. -/
theorem trust_score_is_weighted_composite (o : FloatOracle) (store : ModelStore)
    (db : Db) (now : ℚ) (sid : Nat) (s : UserSessionRow)
    (hs : find_session db sid = some s) :
    (calculate_trust_score o store db now sid).1.trust_score =
      clamp01 ((4/10) * ((1 - (predict_anomaly o store db s.user_id sid).anomaly_score) *
            (predict_anomaly o store db s.user_id sid).confidence +
          (1/2) * (1 - (predict_anomaly o store db s.user_id sid).confidence)) +
        (2/10) * calculate_temporal_consistency db now s +
        (15/100) * calculate_session_context_score db now s +
        (15/100) * calculate_historical_trust db now s.user_id +
        (1/10) * calculate_anomaly_frequency db now sid) := by
  have hr := predict_anomaly_range o store db s.user_id sid
  unfold calculate_trust_score
  rw [hs]
  dsimp only
  unfold clamp01 trust_weighted_sum trust_components_of
  dsimp only
  rw [calculate_behavioral_score_eq _ hr.1.1 hr.1.2 hr.2.1 hr.2.2]
  congr 1
  congr 1
  ring

/-- Witness for C1 at a concrete store: one fresh session, no events, no
model bundle. -/
theorem trust_score_is_weighted_composite_w :
    find_session exDb 1 = some exSession ∧
    (calculate_trust_score zeroOracle emptyStore exDb 30 1).1.trust_score =
      clamp01 ((4/10) * ((1 - (predict_anomaly zeroOracle emptyStore exDb
            exSession.user_id 1).anomaly_score) *
            (predict_anomaly zeroOracle emptyStore exDb exSession.user_id 1).confidence +
          (1/2) * (1 - (predict_anomaly zeroOracle emptyStore exDb
            exSession.user_id 1).confidence)) +
        (2/10) * calculate_temporal_consistency exDb 30 exSession +
        (15/100) * calculate_session_context_score exDb 30 exSession +
        (15/100) * calculate_historical_trust exDb 30 exSession.user_id +
        (1/10) * calculate_anomaly_frequency exDb 30 1) :=
  ⟨rfl, trust_score_is_weighted_composite zeroOracle emptyStore exDb 30 1 exSession rfl⟩

/-- Claim C2: anomaly scores, trust scores and confidences are always in
[0,1]; each per-detector normalised score is clamped to [0,1]; and after a
successful trust update the stored `current_trust_score` of the session is
in [0,1]. -/
theorem all_scores_in_unit_interval (o : FloatOracle) (store : ModelStore)
    (db : Db) (now : ℚ) (uid sid : Nat) (raw : ℚ) (name : String)
    (s : UserSessionRow) :
    (0 ≤ (predict_anomaly o store db uid sid).anomaly_score ∧
      (predict_anomaly o store db uid sid).anomaly_score ≤ 1) ∧
    (0 ≤ (predict_anomaly o store db uid sid).confidence ∧
      (predict_anomaly o store db uid sid).confidence ≤ 1) ∧
    (0 ≤ normalize_anomaly_score raw name ∧ normalize_anomaly_score raw name ≤ 1) ∧
    (0 ≤ (calculate_trust_score o store db now sid).1.trust_score ∧
      (calculate_trust_score o store db now sid).1.trust_score ≤ 1) ∧
    (∀ c, (calculate_trust_score o store db now sid).1.confidence = some c →
      0 ≤ c ∧ c ≤ 1) ∧
    (find_session db sid = some s →
      ∃ r, find_session (calculate_trust_score o store db now sid).2 sid = some r ∧
        0 ≤ r.current_trust_score ∧ r.current_trust_score ≤ 1) := by
  refine ⟨(predict_anomaly_range o store db uid sid).1,
    (predict_anomaly_range o store db uid sid).2,
    normalize_anomaly_score_range raw name,
    trust_score_range o store db now sid, ?_,
    fun hs => stored_trust_range o store db now sid s hs⟩
  intro c hc
  revert hc
  unfold calculate_trust_score
  cases hm : find_session db sid with
  | none => intro hc; exact absurd hc (by simp)
  | some s2 =>
    dsimp only
    intro hc
    injection hc with hc'
    rw [← hc']
    exact (predict_anomaly_range o store db s2.user_id sid).2

/-- Witness for C2: the concrete store of the C1 witness, discharging the
successful-update hypothesis with the session that is present there. -/
theorem all_scores_in_unit_interval_w :
    find_session exDb 1 = some exSession ∧
    (calculate_trust_score zeroOracle emptyStore exDb 30 1).1.confidence = some 0 ∧
    (0 ≤ (0 : ℚ) ∧ (0 : ℚ) ≤ 1) ∧
    (∃ r, find_session (calculate_trust_score zeroOracle emptyStore exDb 30 1).2 1 =
        some r ∧ 0 ≤ r.current_trust_score ∧ r.current_trust_score ≤ 1) :=
  ⟨rfl, rfl,
   (all_scores_in_unit_interval zeroOracle emptyStore exDb 30 1 1 (-7)
     "isolation_forest" exSession).2.2.2.2.1 0 rfl,
   (all_scores_in_unit_interval zeroOracle emptyStore exDb 30 1 1 (-7)
     "isolation_forest" exSession).2.2.2.2.2 rfl⟩

/-- Claim C3: when the session id is not present in the store,
`calculate_trust_score` returns the fallback result — trust 0.5, level
moderate, recommended action increase monitoring, with an error field —
and does not modify the store (in particular the stored
`current_trust_score` and `last_activity` of every session are untouched). -/
theorem trust_fallback_on_missing_session (o : FloatOracle) (store : ModelStore)
    (db : Db) (now : ℚ) (sid : Nat) (h : find_session db sid = none) :
    (calculate_trust_score o store db now sid).1.trust_score = 1/2 ∧
    (calculate_trust_score o store db now sid).1.trust_level = "moderate" ∧
    (calculate_trust_score o store db now sid).1.recommended_action =
      "increase_monitoring" ∧
    (calculate_trust_score o store db now sid).1.error.isSome = true ∧
    (calculate_trust_score o store db now sid).2 = db := by
  unfold calculate_trust_score
  rw [h]
  exact ⟨rfl, rfl, rfl, rfl, rfl⟩

/-- Witness for C3: an empty store. -/
theorem trust_fallback_on_missing_session_w :
    find_session emptyDb 1 = none ∧
    (calculate_trust_score zeroOracle emptyStore emptyDb 0 1).1.trust_score = 1/2 ∧
    (calculate_trust_score zeroOracle emptyStore emptyDb 0 1).2 = emptyDb :=
  ⟨rfl,
   (trust_fallback_on_missing_session zeroOracle emptyStore emptyDb 0 1 rfl).1,
   (trust_fallback_on_missing_session zeroOracle emptyStore emptyDb 0 1 rfl).2.2.2.2⟩

/-! Section: Lemmas for the session-liveness claim -/

lemma dead_token_map (l : List UserSessionRow) (tok : String)
    (g : UserSessionRow → UserSessionRow)
    (htok : ∀ r, (g r).session_token = r.session_token)
    (hact : ∀ r, (g r).is_active = true → r.is_active = true)
    (h : dead_token l tok) : dead_token (l.map g) tok := by
  obtain ⟨⟨r0, hr0, hr0t⟩, hall⟩ := h
  constructor
  · exact ⟨g r0, List.mem_map.2 ⟨r0, hr0, rfl⟩, by rw [htok r0]; exact hr0t⟩
  · intro r hr hrt
    obtain ⟨a, ha, rfl⟩ := List.mem_map.1 hr
    have hat : a.session_token = tok := by rw [← htok a]; exact hrt
    have hfalse := hall a ha hat
    cases hb : (g a).is_active
    · rfl
    · have h2 := hact a hb
      rw [hfalse] at h2
      exact Bool.noConfusion h2

lemma dead_token_append (l : List UserSessionRow) (tok : String) (r : UserSessionRow)
    (hr : r.session_token ≠ tok) (h : dead_token l tok) :
    dead_token (l ++ [r]) tok := by
  obtain ⟨⟨r0, hr0, hr0t⟩, hall⟩ := h
  constructor
  · exact ⟨r0, List.mem_append_left _ hr0, hr0t⟩
  · intro x hx hxt
    rcases List.mem_append.1 hx with hx | hx
    · exact hall x hx hxt
    · rw [List.mem_singleton] at hx
      subst hx
      exact absurd hxt hr

lemma dead_token_update (db : Db) (sid : Nat) (f : UserSessionRow → UserSessionRow)
    (tok : String)
    (htok : ∀ r, (f r).session_token = r.session_token)
    (hact : ∀ r, (f r).is_active = true → r.is_active = true)
    (h : dead_token db.sessions tok) :
    dead_token (update_session db sid f).sessions tok := by
  unfold update_session
  dsimp only
  apply dead_token_map _ tok _ ?_ ?_ h
  · intro r
    by_cases hr : r.id = sid
    · rw [if_pos hr]; exact htok r
    · rw [if_neg hr]
  · intro r
    by_cases hr : r.id = sid
    · rw [if_pos hr]; exact hact r
    · rw [if_neg hr]; exact id

lemma dead_token_calculate_trust (o : FloatOracle) (store : ModelStore) (db : Db)
    (now : ℚ) (sid : Nat) (tok : String) (h : dead_token db.sessions tok) :
    dead_token (calculate_trust_score o store db now sid).2.sessions tok := by
  unfold calculate_trust_score
  cases hm : find_session db sid with
  | none => exact h
  | some s =>
    dsimp only
    unfold update_session_trust
    exact dead_token_update db sid _ tok (fun r => rfl) (fun r => id) h

lemma dead_token_verify (db : Db) (tok2 : String) (now : ℚ) (tok : String)
    (h : dead_token db.sessions tok) :
    dead_token (verify_session_token db tok2 now).2.sessions tok := by
  unfold verify_session_token
  cases hm : get_active_session db tok2 with
  | none => exact h
  | some s =>
    dsimp only
    split_ifs
    · exact h
    · exact dead_token_update db s.id _ tok (fun r => rfl)
        (fun r hr => by simp at hr) h
    · exact h

lemma dead_token_continuous (o : FloatOracle) (store : ModelStore) (db : Db)
    (tok2 : String) (now : ℚ) (tok : String) (h : dead_token db.sessions tok) :
    dead_token (continuous_verification o store db tok2 now).2.sessions tok := by
  unfold continuous_verification
  dsimp only
  cases hm : (verify_session_token db tok2 now).1 with
  | error e => exact dead_token_verify db tok2 now tok h
  | ok s =>
    dsimp only
    apply dead_token_update _ s.id (fun r => { r with last_activity := now }) tok
      (fun r => rfl) (fun r => id)
    exact dead_token_calculate_trust o store _ now s.id tok
      (dead_token_verify db tok2 now tok h)

lemma dead_token_apply_op (o : FloatOracle) (store : ModelStore) (op : Op)
    (db : Db) (tok : String) (h : dead_token db.sessions tok) :
    dead_token (apply_op o store op db).sessions tok := by
  cases op with
  | trust_score sid now => exact dead_token_calculate_trust o store db now sid tok h
  | security_action sid a =>
    show dead_token (execute_security_action db sid a).2.sessions tok
    unfold execute_security_action
    cases hm : find_session db sid with
    | none => exact h
    | some s =>
      cases a
      case terminate_session =>
        exact dead_token_update db sid _ tok (fun r => rfl)
          (fun r hr => by simp at hr) h
      case require_reauth =>
        exact dead_token_update db sid _ tok (fun r => rfl) (fun r => id) h
      all_goals exact h
  | verify_token tok2 now => exact dead_token_verify db tok2 now tok h
  | continuous_verify tok2 now => exact dead_token_continuous o store db tok2 now tok h
  | update_activity tok2 now =>
    show dead_token (match get_active_session db tok2 with
      | some s => update_session db s.id (fun r => { r with last_activity := now })
      | none => db).sessions tok
    cases hm : get_active_session db tok2 with
    | none => exact h
    | some s => exact dead_token_update db s.id _ tok (fun r => rfl) (fun r => id) h
  | append_event e => exact h
  | create_session r =>
    show dead_token (if db.sessions.any
        (fun x => x.id == r.id || x.session_token == r.session_token)
      then db else { db with sessions := db.sessions ++ [r] }).sessions tok
    split_ifs with hg
    · exact h
    · apply dead_token_append _ tok r _ h
      intro hrt
      apply hg
      obtain ⟨⟨r0, hr0, hr0t⟩, _⟩ := h
      refine List.any_eq_true.2 ⟨r0, hr0, ?_⟩
      simp [hr0t, hrt]

lemma dead_token_run_ops (o : FloatOracle) (store : ModelStore) (ops : List Op)
    (db : Db) (tok : String) (h : dead_token db.sessions tok) :
    dead_token (run_ops o store ops db).sessions tok := by
  induction ops generalizing db with
  | nil => exact h
  | cons op rest ih => exact ih _ (dead_token_apply_op o store op db tok h)

lemma get_active_session_none_of_dead (db : Db) (tok : String)
    (h : dead_token db.sessions tok) : get_active_session db tok = none := by
  unfold get_active_session
  apply List.find?_eq_none.2
  intro x hx
  by_cases hxt : x.session_token = tok
  · have := h.2 x hx hxt
    simp [this]
  · simp [hxt]

lemma verify_fails_of_dead (db : Db) (tok : String) (now : ℚ)
    (h : dead_token db.sessions tok) :
    (verify_session_token db tok now).1 = .error "Invalid or expired session" := by
  unfold verify_session_token
  rw [get_active_session_none_of_dead db tok h]

lemma continuous_fails_of_dead (o : FloatOracle) (store : ModelStore) (db : Db)
    (tok : String) (now : ℚ) (h : dead_token db.sessions tok) :
    (continuous_verification o store db tok now).1 =
      .error "Invalid or expired session" := by
  unfold continuous_verification
  dsimp only
  rw [verify_fails_of_dead db tok now h]

lemma dead_token_after_terminate (db : Db) (sid : Nat) (s : UserSessionRow)
    (hs : find_session db sid = some s)
    (huniq : ∀ r ∈ db.sessions, r.session_token = s.session_token → r.id = sid) :
    dead_token
      (execute_security_action db sid SecurityAction.terminate_session).2.sessions
      s.session_token := by
  unfold execute_security_action
  rw [hs]
  dsimp only
  unfold update_session
  dsimp only
  have hsmem : s ∈ db.sessions := List.mem_of_find?_eq_some hs
  have hsid : s.id = sid := by
    have := List.find?_some hs
    simpa using this
  constructor
  · refine ⟨{ s with is_active := false }, ?_, rfl⟩
    refine List.mem_map.2 ⟨s, hsmem, ?_⟩
    rw [if_pos hsid]
  · intro r hr hrt
    obtain ⟨a, ha, rfl⟩ := List.mem_map.1 hr
    by_cases haid : a.id = sid
    · rw [if_pos haid]
    · rw [if_neg haid] at hrt ⊢
      exact absurd (huniq a ha hrt) haid

/-- Claim C4: once `execute_security_action` applies TERMINATE_SESSION to a
session, after ANY sequence of service operations every row carrying that
token of that session is still inactive (terminated sessions are never revived),
and both `verify_session_token` and `continuous_verification` with that
token fail with the 401 rejection. -/
theorem terminated_session_stays_terminated (o : FloatOracle) (store : ModelStore)
    (db : Db) (sid : Nat) (s : UserSessionRow) (now : ℚ) (ops : List Op)
    (hs : find_session db sid = some s)
    (huniq : ∀ r ∈ db.sessions, r.session_token = s.session_token → r.id = sid) :
    (∀ r ∈ (run_ops o store ops
        (execute_security_action db sid SecurityAction.terminate_session).2).sessions,
      r.session_token = s.session_token → r.is_active = false) ∧
    (verify_session_token (run_ops o store ops
        (execute_security_action db sid SecurityAction.terminate_session).2)
      s.session_token now).1 = .error "Invalid or expired session" ∧
    (continuous_verification o store (run_ops o store ops
        (execute_security_action db sid SecurityAction.terminate_session).2)
      s.session_token now).1 = .error "Invalid or expired session" := by
  have hd := dead_token_after_terminate db sid s hs huniq
  have hd2 := dead_token_run_ops o store ops _ s.session_token hd
  exact ⟨hd2.2, verify_fails_of_dead _ _ now hd2,
    continuous_fails_of_dead o store _ _ now hd2⟩

/-- Witness for C4: terminate the concrete session, then run a trust
recalculation and an activity bump; verification still rejects the token. -/
theorem terminated_session_stays_terminated_w :
    find_session exDb 1 = some exSession ∧
    (verify_session_token (run_ops zeroOracle emptyStore
        [Op.trust_score 1 60, Op.update_activity "tok" 90]
        (execute_security_action exDb 1 SecurityAction.terminate_session).2)
      exSession.session_token 120).1 = .error "Invalid or expired session" :=
  ⟨rfl, (terminated_session_stays_terminated zeroOracle emptyStore exDb 1 exSession
      120 [Op.trust_score 1 60, Op.update_activity "tok" 90] rfl
      (by
        intro r hr hrt
        have : r = exSession := by simpa [exDb] using hr
        rw [this]
        rfl)).2.1⟩

/-! Section: Evaluation of the concrete store `exDb` (no model, no events, one
fresh session with the column defaults, scored at `now = 30`) -/

lemma ex_predict :
    predict_anomaly zeroOracle emptyStore exDb exSession.user_id 1 =
      { anomaly_score := 0, risk_level := "unknown", confidence := 0,
        message := some "No trained model available" } := rfl

lemma ex_behavioral :
    calculate_behavioral_score
      (predict_anomaly zeroOracle emptyStore exDb exSession.user_id 1) = 1/2 := by
  rw [ex_predict]
  norm_num [calculate_behavioral_score, clamp01]

lemma ex_temporal : calculate_temporal_consistency exDb 30 exSession = 7/10 := by
  norm_num [calculate_temporal_consistency, exDb]

lemma ex_context : calculate_session_context_score exDb 30 exSession = 21/50 := by
  norm_num [calculate_session_context_score, exDb, exSession, clamp01]

lemma ex_historical : calculate_historical_trust exDb 30 exSession.user_id = 1 := by
  norm_num [calculate_historical_trust, exDb, exSession, npMean, npVar, clamp01,
    List.filterMap_cons, List.filterMap_nil]

lemma ex_freq : calculate_anomaly_frequency exDb 30 1 = 1 := by
  norm_num [calculate_anomaly_frequency, exDb]

lemma ex_components :
    trust_components_of zeroOracle emptyStore exDb 30 1 exSession =
      ⟨1/2, 7/10, 21/50, 1, 1⟩ := by
  unfold trust_components_of
  rw [ex_behavioral, ex_temporal, ex_context, ex_historical, ex_freq]

lemma ex_final :
    max 0 (min 1 (trust_weighted_sum
      (trust_components_of zeroOracle emptyStore exDb 30 1 exSession))) = 653/1000 := by
  rw [ex_components]
  norm_num [trust_weighted_sum]

lemma ex_trust_score_val :
    (calculate_trust_score zeroOracle emptyStore exDb 30 1).1.trust_score =
      653/1000 := by
  have h : (calculate_trust_score zeroOracle emptyStore exDb 30 1).1.trust_score =
      max 0 (min 1 (trust_weighted_sum
        (trust_components_of zeroOracle emptyStore exDb 30 1 exSession))) := rfl
  rw [h, ex_final]

lemma ex_trust_level_val :
    (calculate_trust_score zeroOracle emptyStore exDb 30 1).1.trust_level =
      "high" := by
  have h : (calculate_trust_score zeroOracle emptyStore exDb 30 1).1.trust_level =
      (determine_trust_level (max 0 (min 1 (trust_weighted_sum
        (trust_components_of zeroOracle emptyStore exDb 30 1 exSession))))).value := rfl
  rw [h, ex_final]
  norm_num [determine_trust_level, TrustLevel.value]

/-- Counterexample to claim C5: scoring the fresh session (stored trust 1.0)
writes back 0.653, a swing of 0.347 > `max_decay_per_update = 0.2`; the
declared per-update cap is not applied on the write-back path. -/
theorem max_decay_per_update_not_enforced_cx :
    exSession.current_trust_score = 1 ∧
    (calculate_trust_score zeroOracle emptyStore exDb 30 1).2.sessions =
      [{ exSession with current_trust_score := 653/1000, last_activity := 30 }] ∧
    ¬ |(653/1000 : ℚ) - 1| ≤ 2/10 := by
  refine ⟨rfl, ?_, by rw [abs_of_nonpos (by norm_num)]; norm_num⟩
  have h : (calculate_trust_score zeroOracle emptyStore exDb 30 1).2.sessions =
      [{ exSession with
          current_trust_score := max 0 (min 1 (trust_weighted_sum
            (trust_components_of zeroOracle emptyStore exDb 30 1 exSession))),
          last_activity := 30 }] := rfl
  rw [h, ex_final]

/-- Claim C5 as amended: the write-back stores the clamped composite
unchanged — no per-update cap is applied — so the only bound on the swing of
the stored trust is the trivial one: when the previous value lies in [0,1],
the absolute difference is at most 1 (and it does reach beyond 0.2, see the
counterexample). -/
theorem trust_update_swing_bounded_only_by_unit (o : FloatOracle)
    (store : ModelStore) (db : Db) (now : ℚ) (sid : Nat) (s : UserSessionRow)
    (hs : find_session db sid = some s)
    (h0 : 0 ≤ s.current_trust_score) (h1 : s.current_trust_score ≤ 1) :
    ∃ r, find_session (calculate_trust_score o store db now sid).2 sid = some r ∧
      r.current_trust_score = (calculate_trust_score o store db now sid).1.trust_score ∧
      |r.current_trust_score - s.current_trust_score| ≤ 1 := by
  obtain ⟨r, hr, hr0, hr1⟩ := stored_trust_range o store db now sid s hs
  refine ⟨r, hr, ?_, ?_⟩
  · have h : (calculate_trust_score o store db now sid).2 =
        update_session_trust db sid
          (calculate_trust_score o store db now sid).1.trust_score now := by
      unfold calculate_trust_score
      rw [hs]
    rw [h] at hr
    unfold update_session_trust at hr
    have := find_session_update_session db sid
      (fun x => { x with
        current_trust_score := (calculate_trust_score o store db now sid).1.trust_score,
        last_activity := now }) (fun x => rfl) s hs
    rw [this] at hr
    injection hr with hr'
    rw [← hr']
  · rw [abs_sub_le_iff]
    constructor <;> linarith

/-- Witness for the amended C5 at the concrete store. -/
theorem trust_update_swing_bounded_only_by_unit_w :
    find_session exDb 1 = some exSession ∧
    0 ≤ exSession.current_trust_score ∧ exSession.current_trust_score ≤ 1 ∧
    ∃ r, find_session (calculate_trust_score zeroOracle emptyStore exDb 30 1).2 1 =
        some r ∧
      r.current_trust_score =
        (calculate_trust_score zeroOracle emptyStore exDb 30 1).1.trust_score ∧
      |r.current_trust_score - exSession.current_trust_score| ≤ 1 :=
  ⟨rfl, by norm_num [exSession], by norm_num [exSession],
   trust_update_swing_bounded_only_by_unit zeroOracle emptyStore exDb 30 1 exSession
     rfl (by norm_num [exSession]) (by norm_num [exSession])⟩

/-- Counterexample to claim C7: with no trained bundle the predictor does
return the neutral no-model analysis, but the `/trust/score` result is NOT
trust 0.5 / moderate: on the concrete fresh session the composite is 0.653
with level high (the action happens to be increase monitoring). -/
theorem no_model_score_not_half_cx :
    load_user_model emptyStore exSession.user_id = none ∧
    (calculate_trust_score zeroOracle emptyStore exDb 30 1).1.behavioral_analysis =
      some { anomaly_score := 0, risk_level := "unknown", confidence := 0,
             message := some "No trained model available" } ∧
    (calculate_trust_score zeroOracle emptyStore exDb 30 1).1.trust_score = 653/1000 ∧
    (calculate_trust_score zeroOracle emptyStore exDb 30 1).1.trust_score ≠ 1/2 ∧
    (calculate_trust_score zeroOracle emptyStore exDb 30 1).1.trust_level = "high" ∧
    (calculate_trust_score zeroOracle emptyStore exDb 30 1).1.trust_level ≠ "moderate" := by
  refine ⟨rfl, rfl, ex_trust_score_val, ?_, ex_trust_level_val, ?_⟩
  · rw [ex_trust_score_val]
    norm_num
  · rw [ex_trust_level_val]
    intro h
    exact absurd h (by simp)

/-- The no-model branch of the predictor. -/
lemma predict_anomaly_no_model (o : FloatOracle) (store : ModelStore) (db : Db)
    (uid sid : Nat) (hm : load_user_model store uid = none) :
    predict_anomaly o store db uid sid =
      { anomaly_score := 0, risk_level := "unknown", confidence := 0,
        message := some "No trained model available" } := by
  unfold predict_anomaly
  rw [hm]

/-- Claim C7 as amended: without a trained bundle the predictor returns the
neutral analysis carrying "No trained model available" (anomaly 0, risk
unknown, confidence 0) and the behavioral component degenerates to 0.5, but
the returned trust score is the clamped composite of 0.5 weighted with the
remaining live components — not 0.5 — and the level and action follow that
composite. -/
theorem no_model_neutral_behavioral_component (o : FloatOracle)
    (store : ModelStore) (db : Db) (now : ℚ) (sid : Nat) (s : UserSessionRow)
    (hs : find_session db sid = some s)
    (hm : load_user_model store s.user_id = none) :
    (calculate_trust_score o store db now sid).1.behavioral_analysis =
      some { anomaly_score := 0, risk_level := "unknown", confidence := 0,
             message := some "No trained model available" } ∧
    calculate_behavioral_score (predict_anomaly o store db s.user_id sid) = 1/2 ∧
    (calculate_trust_score o store db now sid).1.trust_score =
      clamp01 ((1/2) * (4/10) +
        calculate_temporal_consistency db now s * (2/10) +
        calculate_session_context_score db now s * (15/100) +
        calculate_historical_trust db now s.user_id * (15/100) +
        calculate_anomaly_frequency db now sid * (1/10)) ∧
    (calculate_trust_score o store db now sid).1.recommended_action =
      (trust_action (determine_trust_level
        (calculate_trust_score o store db now sid).1.trust_score)).value := by
  have hp := predict_anomaly_no_model o store db s.user_id sid hm
  have hb : calculate_behavioral_score (predict_anomaly o store db s.user_id sid) =
      1/2 := by
    rw [hp]
    norm_num [calculate_behavioral_score, clamp01]
  refine ⟨?_, hb, ?_, ?_⟩
  · have h : (calculate_trust_score o store db now sid).1.behavioral_analysis =
        some (predict_anomaly o store db s.user_id sid) := by
      unfold calculate_trust_score
      rw [hs]
    rw [h, hp]
  · have h : (calculate_trust_score o store db now sid).1.trust_score =
        max 0 (min 1 (trust_weighted_sum (trust_components_of o store db now sid s))) := by
      unfold calculate_trust_score
      rw [hs]
    rw [h]
    unfold clamp01 trust_weighted_sum trust_components_of
    rw [hb]
  · unfold calculate_trust_score
    rw [hs]

/-- Witness for the amended C7 at the concrete store. -/
theorem no_model_neutral_behavioral_component_w :
    find_session exDb 1 = some exSession ∧
    load_user_model emptyStore exSession.user_id = none ∧
    calculate_behavioral_score
      (predict_anomaly zeroOracle emptyStore exDb exSession.user_id 1) = 1/2 :=
  ⟨rfl, rfl,
   (no_model_neutral_behavioral_component zeroOracle emptyStore exDb 30 1 exSession
     rfl rfl).2.1⟩

/-- Claim C6: training refuses (success = false, "Insufficient training
data") whenever the user has fewer than 50 events in the 30-day window or
fewer than 10 qualifying sessions yield feature vectors, and on a refused
run neither the bundle store nor the database is touched; conversely a
bundle file is (re)written only on a successful run in which at least one
detector was fitted. -/
theorem training_refused_on_insufficient_data (o : FloatOracle)
    (fitters : String → List (List ℚ) → Option Detector)
    (store : ModelStore) (db : Db) (uid : Nat) (now : ℚ) :
    (((collect_events_for_user db uid now).length < 50 ∨
        (qualifying_sessions o db (collect_events_for_user db uid now)).length < 10) →
      (train_user_model o fitters store db uid now).1.success = false ∧
      (train_user_model o fitters store db uid now).1.message =
        "Insufficient training data" ∧
      (train_user_model o fitters store db uid now).2.1 = store ∧
      (train_user_model o fitters store db uid now).2.2 = db) ∧
    ((train_user_model o fitters store db uid now).2.1 = store ∨
      ((train_user_model o fitters store db uid now).1.success = true ∧
        (train_user_model o fitters store db uid now).1.models_trained ≠ [])) := by
  constructor
  · intro h
    have hc : collect_training_data o db uid now = ([], []) := by
      unfold collect_training_data
      rcases h with h | h
      · rw [if_pos h]
      · by_cases h50 : (collect_events_for_user db uid now).length < 50
        · rw [if_pos h50]
        · rw [if_neg h50]
          dsimp only
          rw [if_pos h]
    unfold train_user_model
    rw [hc]
    exact ⟨rfl, rfl, rfl, rfl⟩
  · unfold train_user_model
    dsimp only
    split_ifs with h1 h2
    · exact Or.inl rfl
    · exact Or.inl rfl
    · right
      refine ⟨rfl, ?_⟩
      intro hmap
      apply h2
      rw [List.isEmpty_iff]
      exact List.map_eq_nil_iff.1 hmap

/-- Witness for C6: an empty store refuses training and leaves the (empty)
bundle store untouched. -/
theorem training_refused_on_insufficient_data_w :
    (collect_events_for_user emptyDb 1 0).length < 50 ∧
    (train_user_model zeroOracle (fun _ _ => none) emptyStore emptyDb 1 0).1.success =
      false ∧
    (train_user_model zeroOracle (fun _ _ => none) emptyStore emptyDb 1 0).2.1 =
      emptyStore := by
  have h : (collect_events_for_user emptyDb 1 0).length < 50 := by
    norm_num [collect_events_for_user, emptyDb]
  have happ := (training_refused_on_insufficient_data zeroOracle (fun _ _ => none)
    emptyStore emptyDb 1 0).1 (Or.inl h)
  exact ⟨h, happ.1, happ.2.2.1⟩

/-- Counterexample to claim C8: with three detectors of which the FIRST
disagrees with the other two, the code counts agreement with the first
prediction (ratio 1/3, confidence 0.6) while the claimed majority-sign
ratio is 2/3 (confidence 0.8). -/
theorem confidence_uses_first_not_majority_cx :
    calculate_confidence cx_scores cx_preds = 3/5 ∧
    spec_confidence cx_scores cx_preds = 4/5 ∧
    calculate_confidence cx_scores cx_preds ≠ spec_confidence cx_scores cx_preds := by
  have h1 : calculate_confidence cx_scores cx_preds = 3/5 := by
    norm_num [calculate_confidence, cx_scores, cx_preds, npVar, npMean,
      List.filter_cons, List.filter_nil]
  have h2 : spec_confidence cx_scores cx_preds = 4/5 := by
    norm_num [spec_confidence, cx_scores, cx_preds, npVar, npMean,
      List.filter_cons, List.filter_nil, List.foldr]
  refine ⟨h1, h2, ?_⟩
  rw [h1, h2]
  norm_num

/-- Claim C8 as amended: with at least two detector scores the confidence is
0.6 times the fraction of predictions equal to the prediction of the FIRST
detector (in dictionary order) plus 0.4 times `1/(1+Var(raw scores))`,
clamped to [0,1]; with fewer than two scores it is 0.5. -/
theorem confidence_formula_amended (scores : List (String × ℚ))
    (preds : List (String × ℤ)) :
    (scores.length < 2 → calculate_confidence scores preds = 1/2) ∧
    (2 ≤ scores.length →
      calculate_confidence scores preds =
        min 1 (max 0
          ((((preds.map Prod.snd).filter
              (fun p => p == (preds.map Prod.snd).headD 0)).length : ℚ) /
             ((preds.map Prod.snd).length : ℚ) * (6/10) +
           1 / (1 + npVar (scores.map Prod.snd)) * (4/10)))) := by
  constructor
  · intro h
    unfold calculate_confidence
    rw [if_pos h]
  · intro h
    unfold calculate_confidence
    rw [if_neg (by omega)]

/-- Witness for the amended C8: the single-detector branch at a concrete
singleton, and the main branch at the three-detector input. -/
theorem confidence_formula_amended_w :
    ([(("isolation_forest" : String), (0 : ℚ))].length < 2) ∧
    calculate_confidence [("isolation_forest", 0)] [("isolation_forest", 1)] = 1/2 ∧
    (2 ≤ cx_scores.length) ∧
    calculate_confidence cx_scores cx_preds =
      min 1 (max 0
        ((((cx_preds.map Prod.snd).filter
            (fun p => p == (cx_preds.map Prod.snd).headD 0)).length : ℚ) /
           ((cx_preds.map Prod.snd).length : ℚ) * (6/10) +
         1 / (1 + npVar (cx_scores.map Prod.snd)) * (4/10))) :=
  ⟨by norm_num,
   (confidence_formula_amended [("isolation_forest", 0)] [("isolation_forest", 1)]).1
     (by norm_num),
   by norm_num [cx_scores],
   (confidence_formula_amended cx_scores cx_preds).2 (by norm_num [cx_scores])⟩

/-- Claim C10: `predict_anomaly` is total (the embedding returns a result
dictionary on every input) and on each failure path — missing bundle, empty
session feature map, all detectors failing — the returned result has
anomaly_score exactly 0 and confidence 0, the same score as perfectly
normal behaviour. -/
theorem predict_failure_paths_return_zero (o : FloatOracle) (store : ModelStore)
    (db : Db) (uid sid : Nat) :
    (load_user_model store uid = none →
      predict_anomaly o store db uid sid =
        { anomaly_score := 0, risk_level := "unknown", confidence := 0,
          message := some "No trained model available" }) ∧
    (∀ m, load_user_model store uid = some m →
      (extract_session_features o db sid).isEmpty = true →
      predict_anomaly o store db uid sid =
        { anomaly_score := 0, risk_level := "insufficient_data", confidence := 0,
          message := some "Insufficient behavioral data" }) ∧
    (∀ m, load_user_model store uid = some m →
      (extract_session_features o db sid).isEmpty = false →
      (ensemble_outputs m (extract_session_features o db sid)).isEmpty = true →
      predict_anomaly o store db uid sid =
        { anomaly_score := 0, risk_level := "error", confidence := 0,
          message := some "All models failed to predict" }) := by
  refine ⟨fun h => predict_anomaly_no_model o store db uid sid h, ?_, ?_⟩
  · intro m hm hf
    unfold predict_anomaly
    rw [hm]
    dsimp only
    rw [if_pos hf]
  · intro m hm hf ho
    unfold predict_anomaly
    rw [hm]
    dsimp only
    rw [if_neg (by simp [hf]), if_pos ho]

/-- Witness for C10: the three failure paths at concrete inputs — no bundle
at all; a bundle but a session with no events; a bundle whose only detector
raises on a session with one event. -/
theorem predict_failure_paths_return_zero_w :
    (load_user_model emptyStore 1 = none ∧
      predict_anomaly zeroOracle emptyStore emptyDb 1 1 =
        { anomaly_score := 0, risk_level := "unknown", confidence := 0,
          message := some "No trained model available" }) ∧
    (load_user_model okStore 1 = some okBundle ∧
      (extract_session_features zeroOracle emptyDb 1).isEmpty = true ∧
      predict_anomaly zeroOracle okStore emptyDb 1 1 =
        { anomaly_score := 0, risk_level := "insufficient_data", confidence := 0,
          message := some "Insufficient behavioral data" }) ∧
    (load_user_model failStore 1 = some failBundle ∧
      (extract_session_features zeroOracle exDbOneEvent 1).isEmpty = false ∧
      (ensemble_outputs failBundle
        (extract_session_features zeroOracle exDbOneEvent 1)).isEmpty = true ∧
      predict_anomaly zeroOracle failStore exDbOneEvent 1 1 =
        { anomaly_score := 0, risk_level := "error", confidence := 0,
          message := some "All models failed to predict" }) := by
  have hempty : (extract_session_features zeroOracle emptyDb 1).isEmpty = true := by
    norm_num [extract_session_features, session_events_asc, emptyDb]
  have hfeat : (extract_session_features zeroOracle exDbOneEvent 1).isEmpty = false := by
    norm_num [extract_session_features, session_events_asc, exDbOneEvent, exEvent,
      extract_keystroke_features, extract_keystroke_patterns, all_feature_keys,
      dedup_keys, extract_temporal_features, List.filter_cons, List.filter_nil]
  have hout : (ensemble_outputs failBundle
      (extract_session_features zeroOracle exDbOneEvent 1)).isEmpty = true := by
    norm_num [ensemble_outputs, failBundle, failDetector]
  refine ⟨⟨rfl, (predict_failure_paths_return_zero zeroOracle emptyStore emptyDb 1 1).1
      rfl⟩, ⟨rfl, hempty, ?_⟩, ⟨rfl, hfeat, hout, ?_⟩⟩
  · exact (predict_failure_paths_return_zero zeroOracle okStore emptyDb 1 1).2.1
      okBundle rfl hempty
  · exact (predict_failure_paths_return_zero zeroOracle failStore exDbOneEvent 1 1).2.2
      failBundle rfl hfeat hout

/-! Section: The movement-rhythm claim -/

/-- A perfectly (anti)correlated pair has absolute Pearson coefficient 1. -/
lemma abs_corr_eq_one (x y : List ℚ) (h1 : |dev_products x y| = dev_sq x)
    (h2 : dev_sq y = dev_sq x) (h3 : 0 < dev_sq x) :
    |np_corrcoef x y| = 1 := by
  unfold np_corrcoef
  rw [abs_div, abs_of_nonneg (Real.sqrt_nonneg _)]
  have hcast : |((dev_products x y : ℚ) : ℝ)| = ((dev_sq x : ℚ) : ℝ) := by
    rw [← Rat.cast_abs, h1]
  rw [hcast, h2]
  have hx : (0 : ℝ) < ((dev_sq x : ℚ) : ℝ) := by exact_mod_cast h3
  rw [Real.sqrt_mul_self hx.le]
  exact div_self hx.ne'

lemma cx_corr_lag1 :
    |np_corrcoef [1, 2, 1, 2, 1, 2, 1, 2, 1] [2, 1, 2, 1, 2, 1, 2, 1, 2]| = 1 := by
  apply abs_corr_eq_one
  · norm_num [dev_products, dev_sq, dev_list, npMean]
  · norm_num [dev_sq, dev_list, npMean]
  · norm_num [dev_sq, dev_list, npMean]

lemma cx_corr_lag2 :
    |np_corrcoef [1, 2, 1, 2, 1, 2, 1, 2] [1, 2, 1, 2, 1, 2, 1, 2]| = 1 := by
  apply abs_corr_eq_one
  · norm_num [dev_products, dev_sq, dev_list, npMean]
  · norm_num [dev_sq, dev_list, npMean]
  · norm_num [dev_sq, dev_list, npMean]

lemma cx_corr_lag3 :
    |np_corrcoef [1, 2, 1, 2, 1, 2, 1] [2, 1, 2, 1, 2, 1, 2]| = 1 := by
  apply abs_corr_eq_one
  · norm_num [dev_products, dev_sq, dev_list, npMean]
  · norm_num [dev_sq, dev_list, npMean]
  · norm_num [dev_sq, dev_list, npMean]

lemma cx_corr_lag4 :
    |np_corrcoef [1, 2, 1, 2, 1, 2] [1, 2, 1, 2, 1, 2]| = 1 := by
  apply abs_corr_eq_one
  · norm_num [dev_products, dev_sq, dev_list, npMean]
  · norm_num [dev_sq, dev_list, npMean]
  · norm_num [dev_sq, dev_list, npMean]

lemma cx_rhythm : calculate_movement_rhythm cx_moves = 4/9 := by
  unfold calculate_movement_rhythm
  norm_num [cx_moves, List.range']
  rw [cx_corr_lag1, cx_corr_lag2, cx_corr_lag3, cx_corr_lag4]
  norm_num

lemma cx_claimed : claimed_movement_rhythm cx_moves = 1 := by
  unfold claimed_movement_rhythm
  norm_num [cx_moves, List.range']
  rw [cx_corr_lag1, cx_corr_lag2, cx_corr_lag3, cx_corr_lag4]
  norm_num

/-- Counterexample to claim C9: on a batch of 10 moves with alternating
velocities 1, 2, every tested autocorrelation has absolute value 1, so the
mean over the 4 tested lags is 1, but the code divides the sum by the
constant 9 and returns 4/9. -/
theorem movement_rhythm_divides_by_nine_cx :
    10 ≤ cx_moves.length ∧
    calculate_movement_rhythm cx_moves = 4/9 ∧
    claimed_movement_rhythm cx_moves = 1 ∧
    calculate_movement_rhythm cx_moves ≠ claimed_movement_rhythm cx_moves := by
  refine ⟨by norm_num [cx_moves], cx_rhythm, cx_claimed, ?_⟩
  rw [cx_rhythm, cx_claimed]
  norm_num

/-- Claim C9 as amended: `movement_rhythm` is the summed absolute
autocorrelation divided by the constant 9, which coincides with the claimed
mean over the lags exactly when the batch has at least 20 moves (then 9 lags
are tested); for 10 to 19 moves the divisor 9 exceeds the number of lags. -/
theorem movement_rhythm_amended (moves : List RawMouseEvent)
    (h : 20 ≤ moves.length) :
    calculate_movement_rhythm moves = claimed_movement_rhythm moves := by
  unfold calculate_movement_rhythm claimed_movement_rhythm
  dsimp only
  have hlen : (moves.map (fun e => e.velocity)).length = moves.length :=
    List.length_map _ _
  have hc : ¬ (moves.map (fun e => e.velocity)).length < 10 := by
    rw [hlen]; omega
  have hmin : min 10 ((moves.map (fun e => e.velocity)).length / 2) = 10 := by
    rw [hlen]; omega
  rw [if_neg hc, if_neg hc, hmin, List.length_range']
  norm_num

/-- Witness for the amended C9 at a 20-move batch. -/
theorem movement_rhythm_amended_w :
    20 ≤ w_moves.length ∧
    calculate_movement_rhythm w_moves = claimed_movement_rhythm w_moves :=
  ⟨by norm_num [w_moves],
   movement_rhythm_amended w_moves (by norm_num [w_moves])⟩

end SentinelX
